import Mathlib

/-!
Shallow embedding of the TriviaChain Stylus contract (src/src/lib.rs) and
verification of the specification claims.

Modelling conventions:
* `U256` and `U8` storage values are modelled as `Nat`.  No feasible call
  sequence can make any of the counters or scores reach `2 ^ 256` (scores grow
  by at most a few hundred per call), so unbounded naturals are a faithful
  model of the reachable arithmetic; subtraction sites are either guarded in
  the source or discussed at the claim that concerns them.
* `Address` and `bytes32` values (`FixedBytes<32>`) are modelled as `Nat`,
  with `0` standing for `Address::ZERO` / zeroed bytes.
* Solidity storage mappings are total functions returning the zero-initialised
  record for keys never written, exactly as EVM/Stylus storage does.
* Each public contract method becomes a function
  `state -> args -> Except error result × state`; every `return Err(..)` site
  in the source returns the unchanged input state, mirroring the fact that in
  the source all writes happen after all checks.
* The caller (`msg_sender`) and the block timestamp are explicit arguments
  supplied by the environment, as in the Stylus VM.
-/

namespace Trivia

/-- Account identifier; `0` models `Address::ZERO`. -/
abbrev Address := Nat

/-- Per-session player record (struct `Player` in the source). -/
structure Player where
  player_address : Address
  display_name : Nat
  score : Nat
  current_streak : Nat
  best_streak : Nat
  correct_answers : Nat
  total_response_time : Nat
  is_active : Bool
  join_time : Nat
  rank : Nat
deriving DecidableEq

/-- Zero-initialised player storage slot. -/
def zeroPlayer : Player :=
  ⟨0, 0, 0, 0, 0, 0, 0, false, 0, 0⟩

/-- Global per-account statistics (struct `PlayerStats` in the source). -/
structure PlayerStats where
  games_played : Nat
  total_wins : Nat
  total_score : Nat
  best_score : Nat
  total_correct_answers : Nat
  longest_streak : Nat
deriving DecidableEq

/-- Zero-initialised player statistics slot. -/
def zeroStats : PlayerStats :=
  ⟨0, 0, 0, 0, 0, 0⟩

/-- Per-question metadata (struct `QuestionData` in the source). -/
structure QuestionData where
  question_hash : Nat
  question_type : Nat
  difficulty : Nat
  time_limit : Nat
  correct_answer_hash : Nat
deriving DecidableEq

/-- Zero-initialised question slot. -/
def zeroQuestion : QuestionData :=
  ⟨0, 0, 0, 0, 0⟩

/-- Submitted answer record (struct `Answer` in the source). -/
structure Answer where
  answer_hash : Nat
  submit_time : Nat
  is_correct : Bool
  points_earned : Nat
deriving DecidableEq

/-- Zero-initialised answer slot. -/
def zeroAnswer : Answer :=
  ⟨0, 0, false, 0⟩

/-- One trivia session (struct `GameSession` in the source).  Status codes:
0 Created, 1 Active, 2 Completed, 3 Cancelled (never assigned). -/
structure GameSession where
  session_id : Nat
  host : Address
  room_code : Nat
  status : Nat
  start_time : Nat
  end_time : Nat
  question_count : Nat
  current_question_index : Nat
  question_start_time : Nat
  question_duration : Nat
  players : Address → Player
  player_list : List Address
  player_count : Nat
  max_players : Nat
  prize_pool : Nat
  winner : Address
  questions : Nat → QuestionData
  answers : Nat → Address → Answer

/-- Zero-initialised session slot. -/
def zeroSession : GameSession where
  session_id := 0
  host := 0
  room_code := 0
  status := 0
  start_time := 0
  end_time := 0
  question_count := 0
  current_question_index := 0
  question_start_time := 0
  question_duration := 0
  players := fun _ => zeroPlayer
  player_list := []
  player_count := 0
  max_players := 0
  prize_pool := 0
  winner := 0
  questions := fun _ => zeroQuestion
  answers := fun _ _ => zeroAnswer

/-- Contract-level storage (struct `TriviaChain` in the source). -/
structure TriviaChain where
  sessions : Nat → GameSession
  player_stats : Address → PlayerStats
  next_session_id : Nat
  active_sessions_count : Nat
  owner : Address

/-- Freshly deployed contract: every storage slot zero. -/
def zeroState : TriviaChain where
  sessions := fun _ => zeroSession
  player_stats := fun _ => zeroStats
  next_session_id := 0
  active_sessions_count := 0
  owner := 0

/-- Error enumeration (`TriviaChainError` in the source). -/
inductive TriviaChainError where
  | Unauthorized
  | SessionNotFound
  | SessionAlreadyActive
  | SessionNotActive
  | SessionFull
  | PlayerNotInSession
  | PlayerAlreadyJoined
  | InvalidRoomCode
  | InvalidQuestionIndex
  | QuestionNotActive
  | AlreadyAnswered
  | InvalidAnswer
  | InsufficientPrize
deriving DecidableEq

/-- Embeds `initialize` (src lines 118-125): one-shot owner setup that also
seeds the session-id counter at 1.  The only guard is `owner == ZERO`. -/
def initializeContract (c : TriviaChain) (sender : Address) :
    Except TriviaChainError Unit × TriviaChain :=
  if c.owner ≠ 0 then
    (Except.error TriviaChainError.Unauthorized, c)
  else
    (Except.ok (), { c with owner := sender, next_session_id := 1 })

/-- Embeds `create_session` (src lines 127-150): writes the session slot at
`next_session_id`, advances the counter, bumps the active-session counter.
No precondition is checked.  Fields of the slot not listed in the source
(`start_time`, `player_list`, `players`, ...) keep their previous values. -/
def create_session (c : TriviaChain) (sender : Address)
    (room_code max_players question_duration : Nat) :
    Except TriviaChainError Nat × TriviaChain :=
  let session_id := c.next_session_id
  let s := c.sessions session_id
  let s' := { s with
    session_id := session_id
    host := sender
    room_code := room_code
    status := 0
    max_players := max_players
    question_duration := question_duration
    player_count := 0
    current_question_index := 0 }
  (Except.ok session_id,
   { c with
      sessions := Function.update c.sessions session_id s'
      next_session_id := session_id + 1
      active_sessions_count := c.active_sessions_count + 1 })

/-- Embeds `join_session` (src lines 152-204).  Checks, in source order:
room code, status = Created, capacity, caller not already active; then writes
the player record, appends to the roster and bumps the count. -/
def join_session (c : TriviaChain) (sender : Address) (ts : Nat)
    (session_id room_code display_name : Nat) :
    Except TriviaChainError Unit × TriviaChain :=
  let session := c.sessions session_id
  if session.room_code ≠ room_code then
    (Except.error TriviaChainError.InvalidRoomCode, c)
  else if session.status ≠ 0 then
    (Except.error TriviaChainError.SessionAlreadyActive, c)
  else if session.player_count ≥ session.max_players then
    (Except.error TriviaChainError.SessionFull, c)
  else if (session.players sender).is_active then
    (Except.error TriviaChainError.PlayerAlreadyJoined, c)
  else
    let p := session.players sender
    let p' := { p with
      player_address := sender
      display_name := display_name
      score := 0
      current_streak := 0
      best_streak := 0
      correct_answers := 0
      total_response_time := 0
      is_active := true
      join_time := ts }
    let session' := { session with
      players := Function.update session.players sender p'
      player_list := session.player_list ++ [sender]
      player_count := session.player_count + 1 }
    (Except.ok (), { c with sessions := Function.update c.sessions session_id session' })

/-- Embeds `start_session` (src lines 206-225): host-only transition
Created → Active, recording the start time. -/
def start_session (c : TriviaChain) (sender : Address) (ts : Nat)
    (session_id : Nat) :
    Except TriviaChainError Unit × TriviaChain :=
  let session := c.sessions session_id
  if session.host ≠ sender then
    (Except.error TriviaChainError.Unauthorized, c)
  else if session.status ≠ 0 then
    (Except.error TriviaChainError.SessionAlreadyActive, c)
  else
    let session' := { session with status := 1, start_time := ts }
    (Except.ok (), { c with sessions := Function.update c.sessions session_id session' })

/-- Embeds `start_question` (src lines 227-268): host-only; stores the
question record (its `time_limit` is copied from the session's
`question_duration`), points `current_question_index` at it and stamps
`question_start_time`. -/
def start_question (c : TriviaChain) (sender : Address) (ts : Nat)
    (session_id question_index question_hash question_type difficulty
     correct_answer_hash : Nat) :
    Except TriviaChainError Unit × TriviaChain :=
  let session := c.sessions session_id
  if session.host ≠ sender then
    (Except.error TriviaChainError.Unauthorized, c)
  else if session.status ≠ 1 then
    (Except.error TriviaChainError.SessionNotActive, c)
  else
    let q := session.questions question_index
    let q' := { q with
      question_hash := question_hash
      question_type := question_type
      difficulty := difficulty
      time_limit := session.question_duration
      correct_answer_hash := correct_answer_hash }
    let session' := { session with
      questions := Function.update session.questions question_index q'
      current_question_index := question_index
      question_start_time := ts }
    (Except.ok (), { c with sessions := Function.update c.sessions session_id session' })

/-- Embeds the time-bonus branch of `submit_answer` (src lines 330-335):
up to 50 extra points, linear in the remaining time.  The division by
`time_limit` is only reached when `response_time < time_limit`. -/
def timeBonus (response_time time_limit : Nat) : Nat :=
  if response_time < time_limit then (time_limit - response_time) * 50 / time_limit
  else 0

/-- Embeds the difficulty ladder of `submit_answer` (src lines 343-351):
0 → 100, 1 → 150, 2 → 200, anything else → 100. -/
def difficultyMultiplier (difficulty : Nat) : Nat :=
  if difficulty = 0 then 100
  else if difficulty = 1 then 150
  else if difficulty = 2 then 200
  else 100

/-- Embeds `submit_answer` (src lines 270-396).  Checks, in source order:
session Active, question index current, caller active, not already answered
(sentinel: stored `submit_time ≠ 0`), question window not expired; then
scores the answer, updates the player and writes the `Answer` record. -/
def submit_answer (c : TriviaChain) (sender : Address) (ts : Nat)
    (session_id question_index answer_hash : Nat) :
    Except TriviaChainError Nat × TriviaChain :=
  let current_time := ts
  let session := c.sessions session_id
  if session.status ≠ 1 then
    (Except.error TriviaChainError.SessionNotActive, c)
  else if session.current_question_index ≠ question_index then
    (Except.error TriviaChainError.InvalidQuestionIndex, c)
  else
    let player := session.players sender
    if ¬ player.is_active then
      (Except.error TriviaChainError.PlayerNotInSession, c)
    else if (session.answers question_index sender).submit_time ≠ 0 then
      (Except.error TriviaChainError.AlreadyAnswered, c)
    else if current_time > session.question_start_time + session.question_duration then
      (Except.error TriviaChainError.QuestionNotActive, c)
    else
      let question := session.questions question_index
      let is_correct : Bool := answer_hash = question.correct_answer_hash
      let response_time := current_time - session.question_start_time
      let time_bonus := timeBonus response_time session.question_duration
      let base_points := if is_correct then 100 else 0
      let points0 := (base_points + time_bonus) * difficultyMultiplier question.difficulty / 100
      let new_streak := if is_correct then player.current_streak + 1 else 0
      let points := if is_correct ∧ 2 ≤ new_streak then points0 + new_streak * 10 else points0
      let player1 :=
        if is_correct then
          { player with
            current_streak := new_streak
            best_streak := if new_streak > player.best_streak then new_streak else player.best_streak
            correct_answers := player.correct_answers + 1 }
        else
          { player with current_streak := 0 }
      let player2 := { player1 with
        score := player.score + points
        total_response_time := player.total_response_time + response_time }
      let answer' : Answer := ⟨answer_hash, current_time, is_correct, points⟩
      let session' := { session with
        players := Function.update session.players sender player2
        answers := Function.update session.answers question_index
          (Function.update (session.answers question_index) sender answer') }
      (Except.ok points, { c with sessions := Function.update c.sessions session_id session' })

/-- Embeds the per-player fold body of `end_session` (src lines 450-473):
rolls one session result into the account's global statistics. -/
def closeStats (st : PlayerStats) (score correct best_streak : Nat) : PlayerStats :=
  { st with
    games_played := st.games_played + 1
    total_score := st.total_score + score
    best_score := if score > st.best_score then score else st.best_score
    total_correct_answers := st.total_correct_answers + correct
    longest_streak := if best_streak > st.longest_streak then best_streak else st.longest_streak }

/-- Embeds the winner/record-collection loop of `end_session`
(src lines 417-434): running strict maximum of scores (so the earliest
top scorer is kept) together with the collected per-player data, in
roster order. -/
def endSessionScan (players : Address → Player) :
    List Address → Nat → Address → Nat × Address × List (Address × Nat × Nat × Nat)
  | [], highest, winner => (highest, winner, [])
  | a :: rest, highest, winner =>
    let p := players a
    let hw := if p.score > highest then (p.score, a) else (highest, winner)
    let r := endSessionScan players rest hw.1 hw.2
    (r.1, r.2.1, (a, p.score, p.correct_answers, p.best_streak) :: r.2.2)

/-- Embeds `end_session` (src lines 398-480): host-only transition
Active → Completed; computes the winner by a strict-max scan of the roster,
bumps the winner's `total_wins` (unless the zero address), then folds every
collected player record into the global statistics. -/
def end_session (c : TriviaChain) (sender : Address) (ts : Nat)
    (session_id : Nat) :
    Except TriviaChainError Address × TriviaChain :=
  let session := c.sessions session_id
  if session.host ≠ sender then
    (Except.error TriviaChainError.Unauthorized, c)
  else if session.status ≠ 1 then
    (Except.error TriviaChainError.SessionNotActive, c)
  else
    let scan := endSessionScan session.players session.player_list 0 0
    let winner_address := scan.2.1
    let player_data := scan.2.2
    let session' := { session with status := 2, end_time := ts, winner := winner_address }
    let c1 := { c with sessions := Function.update c.sessions session_id session' }
    let winner_stats := { c1.player_stats winner_address with
      total_wins := (c1.player_stats winner_address).total_wins + 1 }
    let c2 :=
      if winner_address ≠ 0 then
        { c1 with player_stats := Function.update c1.player_stats winner_address winner_stats }
      else c1
    let folded := player_data.foldl
      (fun st d => Function.update st d.1 (closeStats (st d.1) d.2.1 d.2.2.1 d.2.2.2))
      c2.player_stats
    let c3 := { c2 with player_stats := folded }
    let c4 := { c3 with active_sessions_count := c3.active_sessions_count - 1 }
    (Except.ok winner_address, c4)

/-- Embeds `get_session_info` (src lines 482-491). -/
def get_session_info (c : TriviaChain) (session_id : Nat) :
    Address × Nat × Nat × Nat × Address :=
  let session := c.sessions session_id
  (session.host, session.status, session.player_count,
   session.current_question_index, session.winner)

/-- Embeds `get_player_score` (src lines 493-495). -/
def get_player_score (c : TriviaChain) (session_id : Nat) (player : Address) : Nat :=
  ((c.sessions session_id).players player).score

/-- Embeds `get_player_stats` (src lines 497-505): returns
(games_played, total_wins, best_score, longest_streak). -/
def get_player_stats (c : TriviaChain) (player : Address) : Nat × Nat × Nat × Nat :=
  let stats := c.player_stats player
  (stats.games_played, stats.total_wins, stats.best_score, stats.longest_streak)

/-- Comparator of the leaderboard sort (src line 517): entry `a` may precede
entry `b` when `b.score ≤ a.score`; Rust's stable `sort_by` with comparator
`b.1.cmp(&a.1)` sorts ascending in exactly this order. -/
def lbLE (a b : Address × Nat) : Bool :=
  b.2 ≤ a.2

/-- Embeds `get_leaderboard` (src lines 507-519): the roster projected to
(address, score) pairs, stably sorted by descending score.  Rust's
`sort_by` is a stable merge sort, modelled by `List.mergeSort`. -/
def get_leaderboard (c : TriviaChain) (session_id : Nat) : List (Address × Nat) :=
  let session := c.sessions session_id
  let entries := session.player_list.map fun a => (a, (session.players a).score)
  List.mergeSort entries lbLE

/-- One public mutating call of the contract, with its arguments. -/
inductive Op where
  | initializeContract
  | createSession (room_code max_players question_duration : Nat)
  | joinSession (session_id room_code display_name : Nat)
  | startSession (session_id : Nat)
  | startQuestion (session_id question_index question_hash question_type
      difficulty correct_answer_hash : Nat)
  | submitAnswer (session_id question_index answer_hash : Nat)
  | endSession (session_id : Nat)

/-- Dispatch one call against the contract state.  The heterogeneous return
values are folded into `Nat` (unit becomes 0; ids, points and the winner
address are already naturals). -/
def applyOp (c : TriviaChain) (sender : Address) (ts : Nat) :
    Op → Except TriviaChainError Nat × TriviaChain
  | Op.initializeContract =>
    let r := initializeContract c sender
    (r.1.map fun _ => 0, r.2)
  | Op.createSession rc mp qd =>
    create_session c sender rc mp qd
  | Op.joinSession sid rc dn =>
    let r := join_session c sender ts sid rc dn
    (r.1.map fun _ => 0, r.2)
  | Op.startSession sid =>
    let r := start_session c sender ts sid
    (r.1.map fun _ => 0, r.2)
  | Op.startQuestion sid qi qh qt diff cah =>
    let r := start_question c sender ts sid qi qh qt diff cah
    (r.1.map fun _ => 0, r.2)
  | Op.submitAnswer sid qi ah =>
    submit_answer c sender ts sid qi ah
  | Op.endSession sid =>
    end_session c sender ts sid

/-- States reachable from `c0` by sequences of successful calls whose sender
satisfies `S` (the environment guarantee on authenticated callers). -/
inductive ReachFrom (S : Address → Prop) (c0 : TriviaChain) : TriviaChain → Prop
  | base : ReachFrom S c0 c0
  | step {c : TriviaChain} {sender : Address} {ts : Nat} {op : Op} {r : Nat} :
      ReachFrom S c0 c → S sender → (applyOp c sender ts op).1 = Except.ok r →
      ReachFrom S c0 (applyOp c sender ts op).2

/-- Contract state right after deployment followed by `initialize` called by
`deployer` — the intended deployment flow. -/
def initState (deployer : Address) : TriviaChain :=
  (initializeContract zeroState deployer).2

/-- Modelled from the spec: the time-bonus computation with an explicit
division-by-zero check — the result is `none` exactly when the executed path
would divide by zero.  The branch structure is that of the source
(`timeBonus`); only the reached division is instrumented. -/
def timeBonusChecked (response_time time_limit : Nat) : Option Nat :=
  if response_time < time_limit then
    if time_limit = 0 then none
    else some ((time_limit - response_time) * 50 / time_limit)
  else some 0

/-- Modelled from the spec (claim C2 wording): the points awarded for a
correct answer as a function of difficulty, time limit, response time and the
prior streak. -/
def specCorrectPoints (difficulty timeLimit responseTime priorStreak : Nat) : Nat :=
  let tBonus := if timeLimit ≤ responseTime then 0 else (timeLimit - responseTime) * 50 / timeLimit
  let mult :=
    if difficulty = 0 then 100
    else if difficulty = 1 then 150
    else if difficulty = 2 then 200
    else 100
  let raw := (100 + tBonus) * mult / 100
  let newStreak := priorStreak + 1
  let sBonus := if 2 ≤ newStreak then newStreak * 10 else 0
  raw + sBonus

/-- Session 1 created by host 9 (room code 1, two seats, 10-second questions). -/
def exCreated : TriviaChain := (create_session (initState 9) 9 1 2 10).2

/-- Player 7 has joined session 1. -/
def exJoined : TriviaChain := (join_session exCreated 7 3 1 1 55).2

/-- Session 1 is Active. -/
def exActive : TriviaChain := (start_session exJoined 9 4 1).2

/-- Question 0 (Easy, correct hash 42) started at timestamp 5. -/
def exQuestion : TriviaChain := (start_question exActive 9 5 1 0 77 0 0 42).2

/-- Player 7 answered question 0 correctly at timestamp 5 (150 points). -/
def exAnswered : TriviaChain := (submit_answer exQuestion 7 5 1 0 42).2

/-- Question 1 (Easy, correct hash 43) started at timestamp 20. -/
def exQuestion2 : TriviaChain := (start_question exAnswered 9 20 1 1 78 0 0 43).2

/-- Question 0 started at timestamp 0 — the degenerate timestamp. -/
def exQuestion0 : TriviaChain := (start_question exActive 9 0 1 0 77 0 0 42).2

/-- Player 7 answered question 0 at timestamp 0; the stored answer record
carries `submit_time = 0`, indistinguishable from the empty slot. -/
def exAnswered0 : TriviaChain := (submit_answer exQuestion0 7 0 1 0 42).2

def RosterInv (c : TriviaChain) : Prop :=
  ∀ sid, (c.sessions sid).player_list.Nodup ∧
    ∀ a, a ∈ (c.sessions sid).player_list ↔ ((c.sessions sid).players a).is_active = true

/-- The spec's description of the session winner: the zero account when no
player scored above zero, else the earliest-joined player with the strictly
highest score. -/
def isSessionWinner (ps : Address → Player) (l : List Address) (w : Address) : Prop :=
  (w = 0 ∧ ∀ b ∈ l, (ps b).score = 0) ∨
  (∃ pre post, l = pre ++ w :: post ∧ 0 < (ps w).score ∧
    (∀ b ∈ pre, (ps b).score < (ps w).score) ∧
    (∀ b ∈ post, (ps b).score ≤ (ps w).score))

def EndSessionSpec (c : TriviaChain) (sender : Address) (ts sid : Nat) : Prop :=
  ∃ w, (end_session c sender ts sid).1 = Except.ok w ∧
    isSessionWinner (c.sessions sid).players (c.sessions sid).player_list w ∧
    (w = 0 ↔ ∀ b ∈ (c.sessions sid).player_list, ((c.sessions sid).players b).score = 0) ∧
    ((end_session c sender ts sid).2.sessions sid).status = 2 ∧
    ((end_session c sender ts sid).2.sessions sid).winner = w ∧
    (∀ p ∈ (c.sessions sid).player_list,
      ((end_session c sender ts sid).2.player_stats p).games_played =
        (c.player_stats p).games_played + 1 ∧
      ((end_session c sender ts sid).2.player_stats p).total_score =
        (c.player_stats p).total_score + ((c.sessions sid).players p).score ∧
      ((end_session c sender ts sid).2.player_stats p).best_score =
        max (c.player_stats p).best_score ((c.sessions sid).players p).score ∧
      ((end_session c sender ts sid).2.player_stats p).total_correct_answers =
        (c.player_stats p).total_correct_answers + ((c.sessions sid).players p).correct_answers ∧
      ((end_session c sender ts sid).2.player_stats p).longest_streak =
        max (c.player_stats p).longest_streak ((c.sessions sid).players p).best_streak ∧
      ((end_session c sender ts sid).2.player_stats p).total_wins =
        (c.player_stats p).total_wins + (if p = w then 1 else 0)) ∧
    (∀ q, q ∉ (c.sessions sid).player_list →
      (end_session c sender ts sid).2.player_stats q = c.player_stats q)

def CountInv (c : TriviaChain) : Prop :=
  ∀ sid, (c.sessions sid).player_count = (c.sessions sid).player_list.length

def UntouchedInv (c : TriviaChain) : Prop :=
  ∀ sid, c.next_session_id ≤ sid →
    (c.sessions sid).player_list = [] ∧ (c.sessions sid).max_players = 0

def C8Inv (c : TriviaChain) : Prop :=
  RosterInv c ∧ CountInv c ∧ UntouchedInv c ∧ c.owner ≠ 0

def exBad1 : TriviaChain := (create_session zeroState 9 1 2 10).2

def exBad2 : TriviaChain := (create_session exBad1 9 1 2 10).2

def exBad3 : TriviaChain := (join_session exBad2 7 0 1 1 55).2

def exBad4 : TriviaChain := (initializeContract exBad3 9).2

def exBad : TriviaChain := (create_session exBad4 9 1 2 10).2

def ZeroInv (c : TriviaChain) : Prop :=
  (∀ sid, (sid = 0 ∨ c.next_session_id ≤ sid) → c.sessions sid = zeroSession) ∧
  (∀ sid a, ((c.sessions sid).players a).is_active = false →
    (c.sessions sid).players a = zeroPlayer) ∧
  (∀ a, (c.player_stats a).games_played = 0 → c.player_stats a = zeroStats) ∧
  c.owner ≠ 0 ∧ 1 ≤ c.next_session_id

/-! Helper lemmas, spec characterisations and claim theorems. -/

theorem map_error_eq {α β : Type} {f : α → β} {x : Except TriviaChainError α}
    {e : TriviaChainError} (h : x.map f = Except.error e) : x = Except.error e := by
  cases x <;> simp_all [Except.map]

theorem initializeContract_error_eq (c : TriviaChain) (sender : Address)
    (e : TriviaChainError) (h : (initializeContract c sender).1 = Except.error e) :
    (initializeContract c sender).2 = c := by
  simp only [initializeContract] at h ⊢
  split_ifs at h ⊢ <;> simp_all

theorem join_session_error_eq (c : TriviaChain) (sender : Address) (ts sid rc dn : Nat)
    (e : TriviaChainError) (h : (join_session c sender ts sid rc dn).1 = Except.error e) :
    (join_session c sender ts sid rc dn).2 = c := by
  simp only [join_session] at h ⊢
  split_ifs at h ⊢ <;> simp_all

theorem start_session_error_eq (c : TriviaChain) (sender : Address) (ts sid : Nat)
    (e : TriviaChainError) (h : (start_session c sender ts sid).1 = Except.error e) :
    (start_session c sender ts sid).2 = c := by
  simp only [start_session] at h ⊢
  split_ifs at h ⊢ <;> simp_all

theorem start_question_error_eq (c : TriviaChain) (sender : Address)
    (ts sid qi qh qt diff cah : Nat) (e : TriviaChainError)
    (h : (start_question c sender ts sid qi qh qt diff cah).1 = Except.error e) :
    (start_question c sender ts sid qi qh qt diff cah).2 = c := by
  simp only [start_question] at h ⊢
  split_ifs at h ⊢ <;> simp_all

set_option maxHeartbeats 1000000 in
theorem submit_answer_error_eq (c : TriviaChain) (sender : Address) (ts sid qi ah : Nat)
    (e : TriviaChainError) (h : (submit_answer c sender ts sid qi ah).1 = Except.error e) :
    (submit_answer c sender ts sid qi ah).2 = c := by
  simp only [submit_answer] at h ⊢
  split_ifs at h ⊢ <;> simp_all

set_option maxHeartbeats 1000000 in
theorem end_session_error_eq (c : TriviaChain) (sender : Address) (ts sid : Nat)
    (e : TriviaChainError) (h : (end_session c sender ts sid).1 = Except.error e) :
    (end_session c sender ts sid).2 = c := by
  simp only [end_session] at h ⊢
  split_ifs at h ⊢ <;> simp_all

/-- Successful `submit_answer` implies all five preconditions held on entry. -/
theorem submit_answer_ok_inv (c : TriviaChain) (sender : Address) (ts sid qi ah pts : Nat)
    (hok : (submit_answer c sender ts sid qi ah).1 = Except.ok pts) :
    (c.sessions sid).status = 1 ∧
    (c.sessions sid).current_question_index = qi ∧
    ((c.sessions sid).players sender).is_active = true ∧
    ((c.sessions sid).answers qi sender).submit_time = 0 ∧
    ts ≤ (c.sessions sid).question_start_time + (c.sessions sid).question_duration := by
  have hst : (c.sessions sid).status = 1 := by
    by_contra hne
    simp [submit_answer, hne] at hok
  have hqi0 : (c.sessions sid).current_question_index = qi := by
    by_contra hne
    simp [submit_answer, hst, hne] at hok
  have hact : ((c.sessions sid).players sender).is_active = true := by
    by_contra hne
    simp [submit_answer, hst, hqi0, hne] at hok
  have hfresh : ((c.sessions sid).answers qi sender).submit_time = 0 := by
    by_contra hne
    simp [submit_answer, hst, hqi0, hact, hne] at hok
  have hwin : ts ≤ (c.sessions sid).question_start_time + (c.sessions sid).question_duration := by
    by_contra hne
    have hgt : ts > (c.sessions sid).question_start_time + (c.sessions sid).question_duration := by
      omega
    simp [submit_answer, hst, hqi0, hact, hfresh, hgt] at hok
  exact ⟨hst, hqi0, hact, hfresh, hwin⟩

set_option maxHeartbeats 1000000 in
/-- After a successful `submit_answer`, the session is still Active on the same
question, the player still active, and the answer slot carries the call's
timestamp. -/
theorem submit_answer_ok_effects (c : TriviaChain) (sender : Address) (ts sid qi ah pts : Nat)
    (hok : (submit_answer c sender ts sid qi ah).1 = Except.ok pts) :
    ((submit_answer c sender ts sid qi ah).2.sessions sid).status = 1 ∧
    ((submit_answer c sender ts sid qi ah).2.sessions sid).current_question_index = qi ∧
    (((submit_answer c sender ts sid qi ah).2.sessions sid).players sender).is_active = true ∧
    (((submit_answer c sender ts sid qi ah).2.sessions sid).answers qi sender).submit_time = ts := by
  obtain ⟨hst, hqi0, hact, hfresh, hwin⟩ := submit_answer_ok_inv c sender ts sid qi ah pts hok
  have hnl : ¬ (ts > (c.sessions sid).question_start_time + (c.sessions sid).question_duration) := by
    omega
  simp [submit_answer, hst, hqi0, hact, hfresh, hnl, Function.update_same,
    apply_ite Player.is_active, ite_self]

/-- Any `submit_answer` call that reaches the already-answered check with a
non-zero stored `submit_time` is rejected with `AlreadyAnswered`, whatever the
payload and the timestamp, and the state is returned unchanged. -/
theorem already_answered_reject (c : TriviaChain) (sender : Address) (ts sid qi ah : Nat)
    (hst : (c.sessions sid).status = 1)
    (hqi : (c.sessions sid).current_question_index = qi)
    (hact : ((c.sessions sid).players sender).is_active = true)
    (hsub : ((c.sessions sid).answers qi sender).submit_time ≠ 0) :
    submit_answer c sender ts sid qi ah =
      (Except.error TriviaChainError.AlreadyAnswered, c) := by
  simp [submit_answer, hst, hqi, hact, hsub]

set_option maxHeartbeats 1000000 in
/-- No `submit_answer` call ever changes any session's `winner` field. -/
theorem submit_answer_winner_eq (c : TriviaChain) (sender : Address)
    (ts sid qi ah sid2 : Nat) :
    ((submit_answer c sender ts sid qi ah).2.sessions sid2).winner =
      (c.sessions sid2).winner := by
  cases hres : (submit_answer c sender ts sid qi ah).1 with
  | error e => rw [submit_answer_error_eq c sender ts sid qi ah e hres]
  | ok pts =>
    obtain ⟨hst, hqi0, hact, hfresh, hwin⟩ := submit_answer_ok_inv c sender ts sid qi ah pts hres
    have hnl : ¬ (ts > (c.sessions sid).question_start_time + (c.sessions sid).question_duration) := by
      omega
    rcases eq_or_ne sid2 sid with rfl | hne
    · simp [submit_answer, hst, hqi0, hact, hfresh, hnl, Function.update_same]
    · simp [submit_answer, hst, hqi0, hact, hfresh, hnl, Function.update_noteq hne]

set_option maxHeartbeats 1000000 in
/-- A successful `submit_answer` adds exactly the returned points to the
submitting player's score. -/
theorem submit_answer_ok_score (c : TriviaChain) (sender : Address) (ts sid qi ah pts : Nat)
    (hok : (submit_answer c sender ts sid qi ah).1 = Except.ok pts) :
    (((submit_answer c sender ts sid qi ah).2.sessions sid).players sender).score =
      ((c.sessions sid).players sender).score + pts := by
  obtain ⟨hst, hqi0, hact, hfresh, hwin⟩ := submit_answer_ok_inv c sender ts sid qi ah pts hok
  have hnl : ¬ (ts > (c.sessions sid).question_start_time + (c.sessions sid).question_duration) := by
    omega
  simp [submit_answer, hst, hqi0, hact, hfresh, hnl, Function.update_same] at hok ⊢
  rw [hok]

/-- A successful `end_session` returns exactly the strict-max-scan winner and
stores it in the session's `winner` field. -/
theorem end_session_ok_winner (c : TriviaChain) (sender : Address) (ts sid w : Nat)
    (hok : (end_session c sender ts sid).1 = Except.ok w) :
    ((end_session c sender ts sid).2.sessions sid).winner = w ∧
    w = (endSessionScan (c.sessions sid).players (c.sessions sid).player_list 0 0).2.1 := by
  have hhost : (c.sessions sid).host = sender := by
    by_contra hne
    simp [end_session, hne] at hok
  have hst : (c.sessions sid).status = 1 := by
    by_contra hne
    simp [end_session, hhost, hne] at hok
  simp [end_session, hhost, hst, Function.update_same, apply_ite TriviaChain.sessions,
    ite_self] at hok ⊢
  exact ⟨hok, hok.symm⟩

/-- Branch-flipped form of the time bonus, matching the spec's phrasing
(zero when the time limit is reached or exceeded). -/
theorem timeBonus_alt (rt tl : Nat) :
    timeBonus rt tl = if tl ≤ rt then 0 else (tl - rt) * 50 / tl := by
  unfold timeBonus
  rcases Nat.lt_or_ge rt tl with h | h
  · simp [h, Nat.not_le.mpr h]
  · simp [Nat.not_lt.mpr h, h]

/-- C1 counterexample: in `exQuestion`, player 7's successful submission lifts
their total to 150, strictly above every other score (all zero) and above any
previously observed winning score, yet the session's `winner` field stays the
zero address instead of becoming 7 — `submit_answer` does not update winner
data, contradicting the claim that the winner is updated immediately during
the call. -/
theorem c1_counterexample :
    (submit_answer exQuestion 7 5 1 0 42).1 = Except.ok 150 ∧
    ((exAnswered.sessions 1).players 7).score = 150 ∧
    (exQuestion.sessions 1).winner = 0 ∧
    (exAnswered.sessions 1).winner = 0 ∧ (7 : Nat) ≠ 0 :=
  ⟨rfl, rfl, rfl, rfl, by decide⟩

/-- C1 (amended): winner tracking is not incremental in this variant, and the
session struct has no `winning_score` field at all.  `submit_answer` leaves
every session's `winner` unchanged; a successful submission adds exactly the
returned points to the player's score (so per-player totals are monotonically
non-decreasing); the winner is computed only at `end_session`, as the result
of a single strict-maximum scan over the roster, and stored there. -/
theorem c1_winner_tracking_amended (c : TriviaChain) (sender : Address)
    (ts sid qi ah sid2 : Nat) :
    ((submit_answer c sender ts sid qi ah).2.sessions sid2).winner =
      (c.sessions sid2).winner ∧
    (∀ pts, (submit_answer c sender ts sid qi ah).1 = Except.ok pts →
      (((submit_answer c sender ts sid qi ah).2.sessions sid).players sender).score =
        ((c.sessions sid).players sender).score + pts) ∧
    (∀ w, (end_session c sender ts sid).1 = Except.ok w →
      ((end_session c sender ts sid).2.sessions sid).winner = w ∧
      w = (endSessionScan (c.sessions sid).players (c.sessions sid).player_list 0 0).2.1) :=
  ⟨submit_answer_winner_eq c sender ts sid qi ah sid2,
   fun pts hok => submit_answer_ok_score c sender ts sid qi ah pts hok,
   fun w hok => end_session_ok_winner c sender ts sid w hok⟩

/-- C1 witness: the amended theorem applied to the concrete trace — the score
increment at `exQuestion` and the scan winner stored by `end_session` at
`exAnswered`. -/
theorem c1_witness :
    (((submit_answer exQuestion 7 5 1 0 42).2.sessions 1).players 7).score =
      ((exQuestion.sessions 1).players 7).score + 150 ∧
    ((end_session exAnswered 9 40 1).2.sessions 1).winner = 7 :=
  ⟨(c1_winner_tracking_amended exQuestion 7 5 1 0 42 1).2.1 150 rfl,
   ((c1_winner_tracking_amended exAnswered 9 40 1 0 0 1).2.2 7 rfl).1⟩

set_option maxHeartbeats 1000000 in
/-- C2: on an active question answered correctly within the window, the
returned points — also the amount added to the player's score — are exactly
`floor((100 + timeBonus) * difficultyMultiplier / 100) + streakBonus` with
`timeBonus = 0` when `responseTime ≥ timeLimit` and
`floor((timeLimit − responseTime) * 50 / timeLimit)` otherwise, the
multiplier ladder 100/150/200 (default 100), `newStreak = priorStreak + 1`
and `streakBonus = newStreak * 10` when `newStreak ≥ 2`; the streak advances
by one.  The effective time limit is the session's `question_duration`, which
`start_question` also copies into the question's `time_limit` field. -/
theorem c2_scoring_formula (c : TriviaChain) (sender : Address) (ts sid qi ah : Nat)
    (hst : (c.sessions sid).status = 1)
    (hqi : (c.sessions sid).current_question_index = qi)
    (hact : ((c.sessions sid).players sender).is_active = true)
    (hfresh : ((c.sessions sid).answers qi sender).submit_time = 0)
    (hwin : ts ≤ (c.sessions sid).question_start_time + (c.sessions sid).question_duration)
    (hcorrect : ah = ((c.sessions sid).questions qi).correct_answer_hash) :
    (submit_answer c sender ts sid qi ah).1 =
      Except.ok (specCorrectPoints ((c.sessions sid).questions qi).difficulty
        (c.sessions sid).question_duration (ts - (c.sessions sid).question_start_time)
        ((c.sessions sid).players sender).current_streak) ∧
    (((submit_answer c sender ts sid qi ah).2.sessions sid).players sender).score =
      ((c.sessions sid).players sender).score +
        specCorrectPoints ((c.sessions sid).questions qi).difficulty
          (c.sessions sid).question_duration (ts - (c.sessions sid).question_start_time)
          ((c.sessions sid).players sender).current_streak ∧
    (((submit_answer c sender ts sid qi ah).2.sessions sid).players sender).current_streak =
      ((c.sessions sid).players sender).current_streak + 1 := by
  have hnl : ¬ (ts > (c.sessions sid).question_start_time + (c.sessions sid).question_duration) := by
    omega
  simp only [submit_answer, hst, hqi, hact, hfresh, hnl, hcorrect]
  simp only [ne_eq, not_true_eq_false, not_false_eq_true, if_false, ite_false, ite_true,
    decide_eq_true_eq, if_neg, Function.update_same]
  refine ⟨?_, ?_, ?_⟩ <;>
    by_cases hs : 1 ≤ ((c.sessions sid).players sender).current_streak <;>
      simp [hs, specCorrectPoints, difficultyMultiplier, timeBonus_alt, Function.update_same]

/-- C2 witness: the two spec scenarios — Easy, limit 10, response 0, streak
0 → 1 yields 150 points, and a consecutive correct answer (streak 1 → 2) at
the full limit yields 120. -/
theorem c2_witness :
    ((submit_answer exQuestion 7 5 1 0 42).1 = Except.ok (specCorrectPoints 0 10 0 0) ∧
      specCorrectPoints 0 10 0 0 = 150) ∧
    ((submit_answer exQuestion2 7 30 1 1 43).1 = Except.ok (specCorrectPoints 0 10 10 1) ∧
      specCorrectPoints 0 10 10 1 = 120) :=
  ⟨⟨(c2_scoring_formula exQuestion 7 5 1 0 42 (by decide) (by decide) (by decide) (by decide)
      (by decide) (by decide)).1, by decide⟩,
   ⟨(c2_scoring_formula exQuestion2 7 30 1 1 43 (by decide) (by decide) (by decide) (by decide)
      (by decide) (by decide)).1, by decide⟩⟩

/-- C3 counterexample: at `timeLimit = 0` the instrumented time-bonus
computation returns `some 0` — no division by zero is performed, because the
branch guard `responseTime < timeLimit` is false for an unsigned zero limit;
the claim that the code divides by zero there (modelled as the result being
`none`) is refuted at the concrete input `responseTime = 0, timeLimit = 0`. -/
theorem c3_counterexample :
    timeBonusChecked 0 0 = some 0 ∧ timeBonusChecked 0 0 ≠ none ∧ timeBonus 0 0 = 0 := by
  decide

/-- C3 (amended): the time-bonus computation inside `submit_answer` never
divides by zero, for a zero time limit included: the division is guarded by
`responseTime < timeLimit`, which already fails when `timeLimit = 0`, so the
bonus is 0 there and `timeLimit = 0` needs no upstream rejection for safety
of this computation. -/
theorem c3_no_division_by_zero_amended (response_time time_limit : Nat) :
    timeBonusChecked response_time time_limit =
      some (timeBonus response_time time_limit) := by
  unfold timeBonusChecked timeBonus
  rcases Nat.lt_or_ge response_time time_limit with h | h
  · have h0 : time_limit ≠ 0 := by omega
    simp [h, h0]
  · simp [Nat.not_lt.mpr h]

/-- C4 counterexample: joining a session id that was never created does not
fail with `SessionNotFound` — the id 1 was never created in `zeroState`, yet
the call fails with `SessionFull` (the zero-initialised slot matches a zero
room code and has `max_players = 0`). -/
theorem c4_counterexample :
    (join_session zeroState 5 0 1 0 0).1 = Except.error TriviaChainError.SessionFull ∧
    (join_session zeroState 5 0 1 0 0).1 ≠ Except.error TriviaChainError.SessionNotFound := by
  constructor
  · rfl
  · intro h
    rw [show (join_session zeroState 5 0 1 0 0).1 =
      Except.error TriviaChainError.SessionFull from rfl] at h
    simp at h

/-- C4 (amended): `join_session` performs no existence check and can never
return `SessionNotFound`; its error taxonomy, in source order, is exactly:
`InvalidRoomCode` iff the room code mismatches, `SessionAlreadyActive` iff the
code matches but the status is not Created, `SessionFull` iff additionally the
roster count has reached `max_players`, and `PlayerAlreadyJoined` iff all
prior checks pass but the caller is already active.  A never-created session
behaves as the zero-initialised slot (room code 0, `max_players` 0), so a
join attempt on it fails with `InvalidRoomCode` or `SessionFull`. -/
theorem c4_join_error_taxonomy_amended (c : TriviaChain) (sender : Address)
    (ts session_id room_code display_name : Nat) :
    ((join_session c sender ts session_id room_code display_name).1 ≠
      Except.error TriviaChainError.SessionNotFound) ∧
    ((join_session c sender ts session_id room_code display_name).1 =
        Except.error TriviaChainError.InvalidRoomCode ↔
      (c.sessions session_id).room_code ≠ room_code) ∧
    ((join_session c sender ts session_id room_code display_name).1 =
        Except.error TriviaChainError.SessionAlreadyActive ↔
      (c.sessions session_id).room_code = room_code ∧
        (c.sessions session_id).status ≠ 0) ∧
    ((join_session c sender ts session_id room_code display_name).1 =
        Except.error TriviaChainError.SessionFull ↔
      (c.sessions session_id).room_code = room_code ∧
        (c.sessions session_id).status = 0 ∧
        (c.sessions session_id).max_players ≤ (c.sessions session_id).player_count) ∧
    ((join_session c sender ts session_id room_code display_name).1 =
        Except.error TriviaChainError.PlayerAlreadyJoined ↔
      (c.sessions session_id).room_code = room_code ∧
        (c.sessions session_id).status = 0 ∧
        (c.sessions session_id).player_count < (c.sessions session_id).max_players ∧
        ((c.sessions session_id).players sender).is_active = true) := by
  simp only [join_session]
  split_ifs with h1 h2 h3 h4 <;> simp_all

/-- C7 counterexample: a successful submission at block timestamp 0 stores
`submit_time = 0`, which the write-once sentinel cannot distinguish from an
empty slot — a second call with the same (session, question, caller) key then
succeeds again (returning 170 points for the now-2 streak) instead of failing
with `AlreadyAnswered`, and the player's score moves from 150 to 320. -/
theorem c7_counterexample :
    (submit_answer exQuestion0 7 0 1 0 42).1 = Except.ok 150 ∧
    ((exAnswered0.sessions 1).answers 0 7).submit_time = 0 ∧
    (submit_answer exAnswered0 7 0 1 0 42).1 = Except.ok 170 ∧
    (submit_answer exAnswered0 7 0 1 0 42).1 ≠
      Except.error TriviaChainError.AlreadyAnswered ∧
    (((submit_answer exAnswered0 7 0 1 0 42).2.sessions 1).players 7).score = 320 := by
  refine ⟨rfl, rfl, rfl, ?_, rfl⟩
  intro h
  rw [show (submit_answer exAnswered0 7 0 1 0 42).1 = Except.ok 170 from rfl] at h
  simp at h

/-- C7 (amended): after one successful submission at a NON-ZERO block
timestamp for a (session, question, caller) key, any immediately following
`submit_answer` call with the same key — whatever its payload and timestamp —
fails with `AlreadyAnswered` and returns the state bit-for-bit unchanged (so
the stored `Answer` record is not overwritten and the player's score does not
change).  At timestamp 0 the sentinel `submit_time ≠ 0` fails, see the
counterexample. -/
theorem c7_already_answered_amended (c : TriviaChain) (sender : Address)
    (ts sid qi ah pts : Nat)
    (hts : ts ≠ 0)
    (hok : (submit_answer c sender ts sid qi ah).1 = Except.ok pts) :
    ∀ ts2 ah2,
      submit_answer ((submit_answer c sender ts sid qi ah).2) sender ts2 sid qi ah2 =
        (Except.error TriviaChainError.AlreadyAnswered,
         (submit_answer c sender ts sid qi ah).2) := by
  intro ts2 ah2
  obtain ⟨hst, hqi0, hact, hsub⟩ := submit_answer_ok_effects c sender ts sid qi ah pts hok
  exact already_answered_reject _ sender ts2 sid qi ah2 hst hqi0 hact (by rw [hsub]; exact hts)

/-- C7 witness: the amended theorem at the concrete trace — player 7 already
answered question 0 of session 1 at timestamp 5; a retry with a different
payload and timestamp is rejected with `AlreadyAnswered` and no state
change. -/
theorem c7_witness :
    submit_answer ((submit_answer exQuestion 7 5 1 0 42).2) 7 6 1 0 99 =
      (Except.error TriviaChainError.AlreadyAnswered,
       (submit_answer exQuestion 7 5 1 0 42).2) :=
  c7_already_answered_amended exQuestion 7 5 1 0 42 150 (by decide) rfl 6 99

/-- C9: whenever any public mutating operation returns an error, the contract
state it leaves behind is exactly the state it was called in — every
precondition is evaluated before any write, so failed calls have no observable
effect. -/
theorem c9_error_leaves_state_unchanged (c : TriviaChain) (sender : Address) (ts : Nat)
    (op : Op) (e : TriviaChainError)
    (h : (applyOp c sender ts op).1 = Except.error e) :
    (applyOp c sender ts op).2 = c := by
  cases op with
  | initializeContract =>
    exact initializeContract_error_eq c sender e (map_error_eq h)
  | createSession rc mp qd =>
    exact absurd h (by simp [applyOp, create_session])
  | joinSession sid rc dn =>
    exact join_session_error_eq c sender ts sid rc dn e (map_error_eq h)
  | startSession sid =>
    exact start_session_error_eq c sender ts sid e (map_error_eq h)
  | startQuestion sid qi qh qt diff cah =>
    exact start_question_error_eq c sender ts sid qi qh qt diff cah e (map_error_eq h)
  | submitAnswer sid qi ah =>
    exact submit_answer_error_eq c sender ts sid qi ah e h
  | endSession sid =>
    exact end_session_error_eq c sender ts sid e h

/-- C9 witness: a failing join (wrong room code for the zero slot) leaves the
freshly deployed state untouched. -/
theorem c9_witness :
    (applyOp zeroState 5 0 (Op.joinSession 1 1 0)).1 =
      Except.error TriviaChainError.InvalidRoomCode ∧
    (applyOp zeroState 5 0 (Op.joinSession 1 1 0)).2 = zeroState :=
  ⟨rfl, c9_error_leaves_state_unchanged zeroState 5 0 (Op.joinSession 1 1 0)
    TriviaChainError.InvalidRoomCode rfl⟩

theorem lbLE_trans : ∀ (a b c : Address × Nat), lbLE a b → lbLE b c → lbLE a c := by
  intro a b c
  simp only [lbLE, decide_eq_true_eq]
  omega

theorem lbLE_total : ∀ (a b : Address × Nat), lbLE a b || lbLE b a := by
  intro a b
  simp only [lbLE, Bool.or_eq_true, decide_eq_true_eq]
  omega

theorem mergeSort_filter_score (l : List (Address × Nat)) (s : Nat) :
    (List.mergeSort l lbLE).filter (fun x => x.2 == s) =
      l.filter (fun x => x.2 == s) := by
  have hmem : ∀ x ∈ l.filter (fun x => x.2 == s), x.2 = s := by
    intro x hx
    have := List.of_mem_filter hx
    simpa using this
  have hpw : (l.filter (fun x => x.2 == s)).Pairwise (fun a b => lbLE a b = true) := by
    apply List.pairwise_of_forall_mem_list
    intro a ha b hb
    have ha2 := hmem a ha
    have hb2 := hmem b hb
    simp [lbLE, ha2, hb2]
  have hsub : List.Sublist (l.filter (fun x => x.2 == s)) (List.mergeSort l lbLE) :=
    List.sublist_mergeSort lbLE_trans lbLE_total hpw (List.filter_sublist l)
  have hself : (l.filter (fun x => x.2 == s)).filter (fun x => x.2 == s) =
      l.filter (fun x => x.2 == s) := by
    apply List.filter_eq_self.mpr
    intro a ha
    exact (List.mem_filter.mp ha).2
  have hsub2 : List.Sublist (l.filter (fun x => x.2 == s))
      ((List.mergeSort l lbLE).filter (fun x => x.2 == s)) := by
    have h := hsub.filter (fun x => x.2 == s)
    rwa [hself] at h
  have hlen : ((List.mergeSort l lbLE).filter (fun x => x.2 == s)).length =
      (l.filter (fun x => x.2 == s)).length :=
    ((List.mergeSort_perm l lbLE).filter _).length_eq
  exact (hsub2.eq_of_length hlen.symm).symm

theorem get_leaderboard_sorted_perm (c : TriviaChain) (sid : Nat) :
    (get_leaderboard c sid).Perm
      ((c.sessions sid).player_list.map fun a => (a, ((c.sessions sid).players a).score)) ∧
    (get_leaderboard c sid).Pairwise (fun x y => y.2 ≤ x.2) ∧
    ∀ s, (get_leaderboard c sid).filter (fun x => x.2 == s) =
      ((c.sessions sid).player_list.map
        fun a => (a, ((c.sessions sid).players a).score)).filter (fun x => x.2 == s) := by
  refine ⟨List.mergeSort_perm _ _, ?_, fun s => mergeSort_filter_score _ s⟩
  have h := List.sorted_mergeSort lbLE_trans lbLE_total
    ((c.sessions sid).player_list.map fun a => (a, ((c.sessions sid).players a).score))
  exact h.imp fun hab => by simpa [lbLE] using hab

theorem rosterInv_of_fields {c c' : TriviaChain}
    (hl : ∀ sid, (c'.sessions sid).player_list = (c.sessions sid).player_list)
    (ha : ∀ sid a, ((c'.sessions sid).players a).is_active =
      ((c.sessions sid).players a).is_active)
    (hinv : RosterInv c) : RosterInv c' := by
  intro sid
  obtain ⟨hnd, hm⟩ := hinv sid
  refine ⟨hl sid ▸ hnd, fun a => ?_⟩
  rw [hl sid, ha sid a]
  exact hm a

theorem update_field_list {c : TriviaChain} {sid0 : Nat} {s' : GameSession}
    (h : s'.player_list = (c.sessions sid0).player_list) (sid : Nat) :
    ((Function.update c.sessions sid0 s') sid).player_list =
      (c.sessions sid).player_list := by
  rcases eq_or_ne sid sid0 with rfl | hne
  · rw [Function.update_same]
    exact h
  · rw [Function.update_noteq hne]

theorem update_field_active {c : TriviaChain} {sid0 : Nat} {s' : GameSession}
    (h : ∀ a, (s'.players a).is_active = ((c.sessions sid0).players a).is_active)
    (sid : Nat) (a : Address) :
    (((Function.update c.sessions sid0 s') sid).players a).is_active =
      ((c.sessions sid).players a).is_active := by
  rcases eq_or_ne sid sid0 with rfl | hne
  · rw [Function.update_same]
    exact h a
  · rw [Function.update_noteq hne]

theorem join_session_ok_inv (c : TriviaChain) (sender : Address) (ts sid rc dn : Nat)
    (hok : (join_session c sender ts sid rc dn).1 = Except.ok ()) :
    (c.sessions sid).room_code = rc ∧ (c.sessions sid).status = 0 ∧
    (c.sessions sid).player_count < (c.sessions sid).max_players ∧
    ((c.sessions sid).players sender).is_active = false := by
  have h1 : (c.sessions sid).room_code = rc := by
    by_contra hne
    simp [join_session, hne] at hok
  have h2 : (c.sessions sid).status = 0 := by
    by_contra hne
    simp [join_session, h1, hne] at hok
  have h3 : (c.sessions sid).player_count < (c.sessions sid).max_players := by
    by_contra hne
    have hge : (c.sessions sid).player_count ≥ (c.sessions sid).max_players := by omega
    simp [join_session, h1, h2, hge] at hok
  have h4 : ((c.sessions sid).players sender).is_active = false := by
    have h3n : ¬ ((c.sessions sid).max_players ≤ (c.sessions sid).player_count) := by omega
    cases hb : ((c.sessions sid).players sender).is_active
    · rfl
    · simp [join_session, h1, h2, h3n, hb] at hok
  exact ⟨h1, h2, h3, h4⟩

theorem rosterInv_join (c : TriviaChain) (sender : Address) (ts sid rc dn : Nat)
    (hinv : RosterInv c) :
    RosterInv ((join_session c sender ts sid rc dn).2) := by
  cases hres : (join_session c sender ts sid rc dn).1 with
  | error e =>
    rw [join_session_error_eq c sender ts sid rc dn e hres]
    exact hinv
  | ok u =>
    cases u
    obtain ⟨h1, h2, h3, h4⟩ := join_session_ok_inv c sender ts sid rc dn hres
    have h3n : ¬ ((c.sessions sid).player_count ≥ (c.sessions sid).max_players) := by omega
    have hnotmem : sender ∉ (c.sessions sid).player_list := by
      intro hmem
      have := ((hinv sid).2 sender).mp hmem
      rw [h4] at this
      cases this
    simp only [join_session, h1, h2, h3n, h4, ne_eq, not_true_eq_false, not_false_eq_true,
      if_false, ite_false, ite_true, Bool.false_eq_true, if_neg]
    intro sid2
    dsimp only
    rcases eq_or_ne sid2 sid with rfl | hne
    · rw [Function.update_same]
      constructor
      · rw [List.nodup_append]
        refine ⟨(hinv sid2).1, List.nodup_singleton sender, ?_⟩
        intro a ha hb
        simp at hb
        subst hb
        exact hnotmem ha
      · intro a
        simp only [List.mem_append, List.mem_singleton]
        rcases eq_or_ne a sender with rfl | hna
        · simp [Function.update_same]
        · rw [Function.update_noteq hna]
          have hiff := (hinv sid2).2 a
          simp [hiff, hna]
    · rw [Function.update_noteq hne]
      exact hinv sid2

theorem rosterInv_initialize (c : TriviaChain) (sender : Address) (hinv : RosterInv c) :
    RosterInv ((initializeContract c sender).2) := by
  refine rosterInv_of_fields (fun sid => ?_) (fun sid a => ?_) hinv <;>
    (simp only [initializeContract]; split_ifs <;> rfl)

theorem rosterInv_create (c : TriviaChain) (sender : Address) (rc mp qd : Nat)
    (hinv : RosterInv c) : RosterInv ((create_session c sender rc mp qd).2) := by
  refine rosterInv_of_fields (fun sid => ?_) (fun sid a => ?_) hinv
  · simp only [create_session]
    apply update_field_list
    rfl
  · simp only [create_session]
    apply update_field_active
    intro b
    rfl

theorem rosterInv_start_session (c : TriviaChain) (sender : Address) (ts sid0 : Nat)
    (hinv : RosterInv c) : RosterInv ((start_session c sender ts sid0).2) := by
  refine rosterInv_of_fields (fun sid => ?_) (fun sid a => ?_) hinv <;>
    (simp only [start_session]; split_ifs <;> try dsimp only) <;>
    first
      | rfl
      | (apply update_field_list; rfl)
      | (apply update_field_active; intro b; rfl)

theorem rosterInv_start_question (c : TriviaChain) (sender : Address)
    (ts sid0 qi qh qt diff cah : Nat) (hinv : RosterInv c) :
    RosterInv ((start_question c sender ts sid0 qi qh qt diff cah).2) := by
  refine rosterInv_of_fields (fun sid => ?_) (fun sid a => ?_) hinv <;>
    (simp only [start_question]; split_ifs <;> try dsimp only) <;>
    first
      | rfl
      | (apply update_field_list; rfl)
      | (apply update_field_active; intro b; rfl)

set_option maxHeartbeats 1000000 in
theorem rosterInv_submit (c : TriviaChain) (sender : Address) (ts sid0 qi ah : Nat)
    (hinv : RosterInv c) : RosterInv ((submit_answer c sender ts sid0 qi ah).2) := by
  cases hres : (submit_answer c sender ts sid0 qi ah).1 with
  | error e =>
    rw [submit_answer_error_eq c sender ts sid0 qi ah e hres]
    exact hinv
  | ok pts =>
    obtain ⟨hst, hqi0, hact, hfresh, hwin⟩ := submit_answer_ok_inv c sender ts sid0 qi ah pts hres
    have hnl : ¬ (ts > (c.sessions sid0).question_start_time + (c.sessions sid0).question_duration) := by
      omega
    refine rosterInv_of_fields (fun sid => ?_) (fun sid a => ?_) hinv
    · simp [submit_answer, hst, hqi0, hact, hfresh, hnl]
      apply update_field_list
      rfl
    · simp [submit_answer, hst, hqi0, hact, hfresh, hnl]
      apply update_field_active
      intro b
      dsimp only
      rcases eq_or_ne b sender with rfl | hnb
      · rw [Function.update_same]
        simp [apply_ite Player.is_active, ite_self, hact]
      · rw [Function.update_noteq hnb]

theorem rosterInv_end (c : TriviaChain) (sender : Address) (ts sid0 : Nat)
    (hinv : RosterInv c) : RosterInv ((end_session c sender ts sid0).2) := by
  cases hres : (end_session c sender ts sid0).1 with
  | error e =>
    rw [end_session_error_eq c sender ts sid0 e hres]
    exact hinv
  | ok w =>
    have hhost : (c.sessions sid0).host = sender := by
      by_contra hne
      simp [end_session, hne] at hres
    have hst : (c.sessions sid0).status = 1 := by
      by_contra hne
      simp [end_session, hhost, hne] at hres
    refine rosterInv_of_fields (fun sid => ?_) (fun sid a => ?_) hinv <;>
      simp [end_session, hhost, hst, apply_ite TriviaChain.sessions, ite_self]
    · apply update_field_list
      rfl
    · apply update_field_active
      intro b
      rfl

theorem rosterInv_step (c : TriviaChain) (sender : Address) (ts : Nat) (op : Op)
    (hinv : RosterInv c) : RosterInv ((applyOp c sender ts op).2) := by
  cases op with
  | initializeContract => exact rosterInv_initialize c sender hinv
  | createSession rc mp qd => exact rosterInv_create c sender rc mp qd hinv
  | joinSession sid rc dn => exact rosterInv_join c sender ts sid rc dn hinv
  | startSession sid => exact rosterInv_start_session c sender ts sid hinv
  | startQuestion sid qi qh qt diff cah =>
    exact rosterInv_start_question c sender ts sid qi qh qt diff cah hinv
  | submitAnswer sid qi ah => exact rosterInv_submit c sender ts sid qi ah hinv
  | endSession sid => exact rosterInv_end c sender ts sid hinv

theorem rosterInv_reach {S : Address → Prop} {c0 c : TriviaChain}
    (h0 : RosterInv c0) (h : ReachFrom S c0 c) : RosterInv c := by
  induction h with
  | base => exact h0
  | step hr hS hok ih => exact rosterInv_step _ _ _ _ ih

theorem rosterInv_zero : RosterInv zeroState := by
  intro sid
  refine ⟨List.nodup_nil, fun a => ?_⟩
  simp [zeroState, zeroSession, zeroPlayer]

theorem reach_exJoined : ReachFrom (fun _ => True) zeroState exJoined := by
  have h1 := @ReachFrom.step (fun _ => True) zeroState zeroState 9 0
    Op.initializeContract 0 ReachFrom.base trivial rfl
  have h2 := @ReachFrom.step (fun _ => True) zeroState _ 9 0
    (Op.createSession 1 2 10) 1 h1 trivial rfl
  have h3 := @ReachFrom.step (fun _ => True) zeroState _ 7 3
    (Op.joinSession 1 1 55) 0 h2 trivial rfl
  exact h3

/-- C6: for every reachable state and session, `get_leaderboard` returns a
permutation of the roster's (account, score) pairs, sorted by score
descending, with ties broken by join order (the entries of any fixed score
appear exactly in roster order — the characterisation of a stable sort),
and its accounts are exactly the session's active players. -/
theorem c6_leaderboard (c : TriviaChain)
    (h : ReachFrom (fun _ => True) zeroState c) (sid : Nat) :
    (get_leaderboard c sid).Perm
      ((c.sessions sid).player_list.map fun a => (a, ((c.sessions sid).players a).score)) ∧
    (get_leaderboard c sid).Pairwise (fun x y => y.2 ≤ x.2) ∧
    (∀ s, (get_leaderboard c sid).filter (fun x => x.2 == s) =
      ((c.sessions sid).player_list.map
        fun a => (a, ((c.sessions sid).players a).score)).filter (fun x => x.2 == s)) ∧
    (∀ a, (∃ sc, (a, sc) ∈ get_leaderboard c sid) ↔
      ((c.sessions sid).players a).is_active = true) := by
  obtain ⟨hperm, hsorted, hstable⟩ := get_leaderboard_sorted_perm c sid
  refine ⟨hperm, hsorted, hstable, fun a => ?_⟩
  have hro := rosterInv_reach rosterInv_zero h
  constructor
  · rintro ⟨sc, hmem⟩
    have hmem2 := hperm.mem_iff.mp hmem
    obtain ⟨b, hb, heq⟩ := List.mem_map.mp hmem2
    have hba : b = a := congrArg Prod.fst heq
    subst hba
    exact ((hro sid).2 b).mp hb
  · intro hact
    have hb : a ∈ (c.sessions sid).player_list := ((hro sid).2 a).mpr hact
    refine ⟨((c.sessions sid).players a).score, hperm.mem_iff.mpr ?_⟩
    exact List.mem_map.mpr ⟨a, hb, rfl⟩

/-- C6 witness: the leaderboard properties instantiated on the concrete
one-player trace. -/
theorem c6_witness :
    (get_leaderboard exJoined 1).Perm
      ((exJoined.sessions 1).player_list.map
        fun a => (a, ((exJoined.sessions 1).players a).score)) ∧
    (get_leaderboard exJoined 1).Pairwise (fun x y => y.2 ≤ x.2) ∧
    ((7, 0) ∈ get_leaderboard exJoined 1 ↔ True) :=
  ⟨(c6_leaderboard exJoined reach_exJoined 1).1,
   (c6_leaderboard exJoined reach_exJoined 1).2.1,
   by
     have hl : (exJoined.sessions 1).player_list = [7] := rfl
     have hs : ((exJoined.sessions 1).players 7).score = 0 := rfl
     simp [get_leaderboard, hl, hs]⟩

theorem endSessionScan_cons_pos (ps : Address → Player) (x : Address) (rest : List Address)
    (h : Nat) (w : Address) (hx : (ps x).score > h) :
    endSessionScan ps (x :: rest) h w =
      ((endSessionScan ps rest (ps x).score x).1,
       (endSessionScan ps rest (ps x).score x).2.1,
       (x, (ps x).score, (ps x).correct_answers, (ps x).best_streak) ::
         (endSessionScan ps rest (ps x).score x).2.2) := by
  simp [endSessionScan, hx]

theorem endSessionScan_cons_neg (ps : Address → Player) (x : Address) (rest : List Address)
    (h : Nat) (w : Address) (hx : ¬ (ps x).score > h) :
    endSessionScan ps (x :: rest) h w =
      ((endSessionScan ps rest h w).1,
       (endSessionScan ps rest h w).2.1,
       (x, (ps x).score, (ps x).correct_answers, (ps x).best_streak) ::
         (endSessionScan ps rest h w).2.2) := by
  simp [endSessionScan, hx]

theorem endSessionScan_data (ps : Address → Player) (l : List Address) :
    ∀ (h : Nat) (w : Address),
      (endSessionScan ps l h w).2.2 =
        l.map (fun a => (a, (ps a).score, (ps a).correct_answers, (ps a).best_streak)) := by
  induction l with
  | nil => intro h w; rfl
  | cons x rest ih =>
    intro h w
    by_cases hx : (ps x).score > h
    · rw [endSessionScan_cons_pos ps x rest h w hx]
      simp [ih]
    · rw [endSessionScan_cons_neg ps x rest h w hx]
      simp [ih]

theorem endSessionScan_winner_spec (ps : Address → Player) (l : List Address) :
    ∀ (h : Nat) (w : Address),
      ((endSessionScan ps l h w).1 = h ∧ (endSessionScan ps l h w).2.1 = w ∧
        ∀ b ∈ l, (ps b).score ≤ h) ∨
      (∃ pre a post, l = pre ++ a :: post ∧
        (endSessionScan ps l h w).1 = (ps a).score ∧
        (endSessionScan ps l h w).2.1 = a ∧
        h < (ps a).score ∧
        (∀ b ∈ pre, (ps b).score < (ps a).score) ∧
        (∀ b ∈ post, (ps b).score ≤ (ps a).score)) := by
  induction l with
  | nil =>
    intro h w
    exact Or.inl ⟨rfl, rfl, by simp⟩
  | cons x rest ih =>
    intro h w
    by_cases hx : (ps x).score > h
    · rw [endSessionScan_cons_pos ps x rest h w hx]
      rcases ih (ps x).score x with ⟨h1, h2, h3⟩ | ⟨pre, a, post, heq, h1, h2, h3, h4, h5⟩
      · refine Or.inr ⟨[], x, rest, by simp, h1, h2, hx, by simp, h3⟩
      · refine Or.inr ⟨x :: pre, a, post, by simp [heq], h1, h2, by omega, ?_, h5⟩
        intro b hb
        rcases List.mem_cons.mp hb with rfl | hb2
        · omega
        · exact h4 b hb2
    · rw [endSessionScan_cons_neg ps x rest h w hx]
      rcases ih h w with ⟨h1, h2, h3⟩ | ⟨pre, a, post, heq, h1, h2, h3, h4, h5⟩
      · refine Or.inl ⟨h1, h2, ?_⟩
        intro b hb
        rcases List.mem_cons.mp hb with rfl | hb2
        · omega
        · exact h3 b hb2
      · refine Or.inr ⟨x :: pre, a, post, by simp [heq], h1, h2, h3, ?_, h5⟩
        intro b hb
        rcases List.mem_cons.mp hb with rfl | hb2
        · omega
        · exact h4 b hb2

theorem endSessionScan_isSessionWinner (ps : Address → Player) (l : List Address) :
    isSessionWinner ps l (endSessionScan ps l 0 0).2.1 := by
  rcases endSessionScan_winner_spec ps l 0 0 with ⟨h1, h2, h3⟩ | ⟨pre, a, post, heq, h1, h2, h3, h4, h5⟩
  · left
    refine ⟨h2, fun b hb => ?_⟩
    have := h3 b hb
    omega
  · right
    rw [h2]
    exact ⟨pre, post, heq, h3, h4, h5⟩

theorem foldl_stats_not_mem (data : List (Address × Nat × Nat × Nat))
    (st : Address → PlayerStats) (p : Address) (hp : p ∉ data.map Prod.fst) :
    (data.foldl
      (fun st d => Function.update st d.1 (closeStats (st d.1) d.2.1 d.2.2.1 d.2.2.2)) st) p =
      st p := by
  induction data generalizing st with
  | nil => rfl
  | cons d rest ih =>
    simp only [List.map_cons, List.mem_cons, not_or] at hp
    rw [List.foldl_cons, ih _ hp.2, Function.update_noteq hp.1]

theorem foldl_stats_mem (data : List (Address × Nat × Nat × Nat))
    (st : Address → PlayerStats) (p : Address) (s co bs : Nat)
    (hnd : (data.map Prod.fst).Nodup) (hp : (p, s, co, bs) ∈ data) :
    (data.foldl
      (fun st d => Function.update st d.1 (closeStats (st d.1) d.2.1 d.2.2.1 d.2.2.2)) st) p =
      closeStats (st p) s co bs := by
  induction data generalizing st with
  | nil => cases hp
  | cons d rest ih =>
    simp only [List.map_cons, List.nodup_cons] at hnd
    rcases List.mem_cons.mp hp with rfl | hp2
    · rw [List.foldl_cons]
      have hnotin : p ∉ rest.map Prod.fst := by simpa using hnd.1
      rw [foldl_stats_not_mem rest _ p hnotin, Function.update_same]
    · have hpk : p ∈ rest.map Prod.fst := List.mem_map.mpr ⟨(p, s, co, bs), hp2, rfl⟩
      have hne : p ≠ d.1 := by
        intro hpe
        exact hnd.1 (hpe ▸ hpk)
      rw [List.foldl_cons, ih _ hnd.2 hp2, Function.update_noteq hne]

theorem foldl_stats_wins (data : List (Address × Nat × Nat × Nat))
    (st : Address → PlayerStats) (p : Address) :
    ((data.foldl
      (fun st d => Function.update st d.1 (closeStats (st d.1) d.2.1 d.2.2.1 d.2.2.2)) st) p).total_wins =
      (st p).total_wins := by
  induction data generalizing st with
  | nil => rfl
  | cons d rest ih =>
    rw [List.foldl_cons, ih]
    rcases eq_or_ne p d.1 with rfl | hne
    · rw [Function.update_same]
      rfl
    · rw [Function.update_noteq hne]

theorem ite_gt_eq_max (b s : Nat) : (if s > b then s else b) = max b s := by
  rcases Nat.lt_or_ge b s with h | h
  · simp [h, Nat.max_eq_right (Nat.le_of_lt h)]
  · simp [Nat.not_lt.mpr h, Nat.max_eq_left h]

theorem mem_of_eq_append_cons {α : Type} {l pre post : List α} {w : α}
    (h : l = pre ++ w :: post) : w ∈ l := by
  rw [h]
  simp

set_option maxHeartbeats 2000000 in
/-- C5: when the host ends an Active session (with a well-formed roster:
no duplicate entries and no zero address, as guaranteed for reachable
states), the call returns the winner — the earliest-joined player with the
strictly highest score, or the zero account iff no player scored above
zero — stores it, marks the session Completed, and rolls every roster
player's results into the global statistics: games played +1, total score
+= session score, best score and longest streak as maxima, correct answers
accumulated, and total wins +1 for the winner's account only; accounts not
on the roster are untouched. -/
theorem c5_end_session_spec (c : TriviaChain) (sender : Address) (ts sid : Nat)
    (hhost : (c.sessions sid).host = sender)
    (hst : (c.sessions sid).status = 1)
    (hnd : (c.sessions sid).player_list.Nodup)
    (h0 : 0 ∉ (c.sessions sid).player_list) :
    EndSessionSpec c sender ts sid := by
  have hW := endSessionScan_isSessionWinner (c.sessions sid).players (c.sessions sid).player_list
  have hWmem : (endSessionScan (c.sessions sid).players (c.sessions sid).player_list 0 0).2.1 = 0 ∨
      (endSessionScan (c.sessions sid).players (c.sessions sid).player_list 0 0).2.1 ∈
        (c.sessions sid).player_list := by
    rcases hW with ⟨hw0, _⟩ | ⟨pre, post, heq, _, _, _⟩
    · exact Or.inl hw0
    · exact Or.inr (mem_of_eq_append_cons heq)
  have hstats : (end_session c sender ts sid).2.player_stats =
    ((c.sessions sid).player_list.map fun a =>
      (a, ((c.sessions sid).players a).score, ((c.sessions sid).players a).correct_answers,
        ((c.sessions sid).players a).best_streak)).foldl
      (fun st d => Function.update st d.1 (closeStats (st d.1) d.2.1 d.2.2.1 d.2.2.2))
      (if (endSessionScan (c.sessions sid).players (c.sessions sid).player_list 0 0).2.1 ≠ 0 then
        Function.update c.player_stats
          (endSessionScan (c.sessions sid).players (c.sessions sid).player_list 0 0).2.1
          { c.player_stats (endSessionScan (c.sessions sid).players (c.sessions sid).player_list 0 0).2.1 with
            total_wins := (c.player_stats
              (endSessionScan (c.sessions sid).players (c.sessions sid).player_list 0 0).2.1).total_wins + 1 }
      else c.player_stats) := by
    simp [end_session, hhost, hst, endSessionScan_data, apply_ite TriviaChain.player_stats]
  have hkeys : (((c.sessions sid).player_list.map fun a =>
      (a, ((c.sessions sid).players a).score, ((c.sessions sid).players a).correct_answers,
        ((c.sessions sid).players a).best_streak)).map Prod.fst) = (c.sessions sid).player_list := by
    rw [List.map_map]
    have hfn : (Prod.fst ∘ fun a : Address =>
        (a, ((c.sessions sid).players a).score, ((c.sessions sid).players a).correct_answers,
          ((c.sessions sid).players a).best_streak)) = id := rfl
    rw [hfn, List.map_id]
  refine ⟨(endSessionScan (c.sessions sid).players (c.sessions sid).player_list 0 0).2.1,
    ?_, hW, ?_, ?_, ?_, ?_, ?_⟩
  · simp [end_session, hhost, hst]
  · constructor
    · intro hw0
      rcases hW with ⟨_, hall⟩ | ⟨pre, post, heq, hpos, _, _⟩
      · exact hall
      · exfalso
        rw [hw0] at heq
        exact h0 (mem_of_eq_append_cons heq)
    · intro hall
      rcases hW with ⟨hw0, _⟩ | ⟨pre, post, heq, hpos, _, _⟩
      · exact hw0
      · exfalso
        rcases hWmem with hw0 | hmem
        · rw [hw0] at heq
          exact h0 (mem_of_eq_append_cons heq)
        · have := hall _ hmem
          omega
  · simp [end_session, hhost, hst, apply_ite TriviaChain.sessions, ite_self,
      Function.update_same]
  · simp [end_session, hhost, hst, apply_ite TriviaChain.sessions, ite_self,
      Function.update_same]
  · intro p hp
    have hp0 : p ≠ 0 := fun hpe => h0 (hpe ▸ hp)
    have hnd2 : ((((c.sessions sid).player_list.map fun a =>
        (a, ((c.sessions sid).players a).score, ((c.sessions sid).players a).correct_answers,
          ((c.sessions sid).players a).best_streak)).map Prod.fst)).Nodup := by
      rw [hkeys]
      exact hnd
    have hmemd : (p, ((c.sessions sid).players p).score,
        ((c.sessions sid).players p).correct_answers,
        ((c.sessions sid).players p).best_streak) ∈
        ((c.sessions sid).player_list.map fun a =>
          (a, ((c.sessions sid).players a).score, ((c.sessions sid).players a).correct_answers,
            ((c.sessions sid).players a).best_streak)) :=
      List.mem_map.mpr ⟨p, hp, rfl⟩
    rw [hstats, foldl_stats_mem _ _ _ _ _ _ hnd2 hmemd]
    by_cases hpw : p = (endSessionScan (c.sessions sid).players (c.sessions sid).player_list 0 0).2.1
    · rw [← hpw]
      rw [if_pos hp0, Function.update_same]
      simp [closeStats, ite_gt_eq_max]
    · have hst1 : (if (endSessionScan (c.sessions sid).players (c.sessions sid).player_list 0 0).2.1 ≠ 0 then
          Function.update c.player_stats
            (endSessionScan (c.sessions sid).players (c.sessions sid).player_list 0 0).2.1
            { c.player_stats (endSessionScan (c.sessions sid).players (c.sessions sid).player_list 0 0).2.1 with
              total_wins := (c.player_stats
                (endSessionScan (c.sessions sid).players (c.sessions sid).player_list 0 0).2.1).total_wins + 1 }
        else c.player_stats) p = c.player_stats p := by
        split_ifs with hw
        · exact Function.update_noteq hpw _ _
        · rfl
      rw [hst1]
      simp [closeStats, ite_gt_eq_max, hpw]
  · intro q hq
    have hnotk : q ∉ (((c.sessions sid).player_list.map fun a =>
        (a, ((c.sessions sid).players a).score, ((c.sessions sid).players a).correct_answers,
          ((c.sessions sid).players a).best_streak)).map Prod.fst) := by
      rw [hkeys]
      exact hq
    rw [hstats, foldl_stats_not_mem _ _ _ hnotk]
    rcases hWmem with hw0 | hmem
    · rw [if_neg (by simp [hw0])]
    · have hqw : q ≠ (endSessionScan (c.sessions sid).players (c.sessions sid).player_list 0 0).2.1 :=
        fun hqe => hq (hqe ▸ hmem)
      split_ifs with hw
      · exact Function.update_noteq hqw _ _
      · rfl

/-- C5 witness: the specification instantiated on the concrete one-player
trace, where player 7 (score 150) wins session 1 ended by host 9. -/
theorem c5_witness : EndSessionSpec exAnswered 9 40 1 :=
  c5_end_session_spec exAnswered 9 40 1 (by decide) (by decide) (by decide) (by decide)

theorem update_session_shape {c : TriviaChain} {sid0 : Nat} {s' : GameSession}
    (hl : s'.player_list = (c.sessions sid0).player_list)
    (hc : s'.player_count = (c.sessions sid0).player_count)
    (hm : s'.max_players = (c.sessions sid0).max_players) (sid : Nat) :
    ((Function.update c.sessions sid0 s') sid).player_list = (c.sessions sid).player_list ∧
    ((Function.update c.sessions sid0 s') sid).player_count = (c.sessions sid).player_count ∧
    ((Function.update c.sessions sid0 s') sid).max_players = (c.sessions sid).max_players := by
  rcases eq_or_ne sid sid0 with heq | hne
  · subst heq
    rw [Function.update_same]
    exact ⟨hl, hc, hm⟩
  · rw [Function.update_noteq hne]
    exact ⟨rfl, rfl, rfl⟩

theorem start_session_shape (c : TriviaChain) (sender : Address) (ts sid0 : Nat) :
    (∀ sid,
      ((start_session c sender ts sid0).2.sessions sid).player_list =
        (c.sessions sid).player_list ∧
      ((start_session c sender ts sid0).2.sessions sid).player_count =
        (c.sessions sid).player_count ∧
      ((start_session c sender ts sid0).2.sessions sid).max_players =
        (c.sessions sid).max_players) ∧
    (start_session c sender ts sid0).2.next_session_id = c.next_session_id ∧
    (start_session c sender ts sid0).2.owner = c.owner := by
  refine ⟨fun sid => ?_, ?_, ?_⟩ <;>
    (simp only [start_session]; split_ifs <;> try dsimp only) <;>
    first
      | rfl
      | exact ⟨rfl, rfl, rfl⟩
      | (apply update_session_shape <;> rfl)

theorem start_question_shape (c : TriviaChain) (sender : Address)
    (ts sid0 qi qh qt diff cah : Nat) :
    (∀ sid,
      ((start_question c sender ts sid0 qi qh qt diff cah).2.sessions sid).player_list =
        (c.sessions sid).player_list ∧
      ((start_question c sender ts sid0 qi qh qt diff cah).2.sessions sid).player_count =
        (c.sessions sid).player_count ∧
      ((start_question c sender ts sid0 qi qh qt diff cah).2.sessions sid).max_players =
        (c.sessions sid).max_players) ∧
    (start_question c sender ts sid0 qi qh qt diff cah).2.next_session_id = c.next_session_id ∧
    (start_question c sender ts sid0 qi qh qt diff cah).2.owner = c.owner := by
  refine ⟨fun sid => ?_, ?_, ?_⟩ <;>
    (simp only [start_question]; split_ifs <;> try dsimp only) <;>
    first
      | rfl
      | exact ⟨rfl, rfl, rfl⟩
      | (apply update_session_shape <;> rfl)

set_option maxHeartbeats 2000000 in
theorem submit_answer_shape (c : TriviaChain) (sender : Address) (ts sid0 qi ah : Nat) :
    (∀ sid,
      ((submit_answer c sender ts sid0 qi ah).2.sessions sid).player_list =
        (c.sessions sid).player_list ∧
      ((submit_answer c sender ts sid0 qi ah).2.sessions sid).player_count =
        (c.sessions sid).player_count ∧
      ((submit_answer c sender ts sid0 qi ah).2.sessions sid).max_players =
        (c.sessions sid).max_players) ∧
    (submit_answer c sender ts sid0 qi ah).2.next_session_id = c.next_session_id ∧
    (submit_answer c sender ts sid0 qi ah).2.owner = c.owner := by
  refine ⟨fun sid => ?_, ?_, ?_⟩ <;>
    (simp only [submit_answer]; split_ifs <;> try dsimp only) <;>
    first
      | rfl
      | exact ⟨rfl, rfl, rfl⟩
      | (apply update_session_shape <;> rfl)

set_option maxHeartbeats 2000000 in
theorem end_session_shape (c : TriviaChain) (sender : Address) (ts sid0 : Nat) :
    (∀ sid,
      ((end_session c sender ts sid0).2.sessions sid).player_list =
        (c.sessions sid).player_list ∧
      ((end_session c sender ts sid0).2.sessions sid).player_count =
        (c.sessions sid).player_count ∧
      ((end_session c sender ts sid0).2.sessions sid).max_players =
        (c.sessions sid).max_players) ∧
    (end_session c sender ts sid0).2.next_session_id = c.next_session_id ∧
    (end_session c sender ts sid0).2.owner = c.owner := by
  refine ⟨fun sid => ?_, ?_, ?_⟩ <;>
    (simp only [end_session]; split_ifs <;> try dsimp only) <;>
    first
      | rfl
      | exact ⟨rfl, rfl, rfl⟩
      | (apply update_session_shape <;> rfl)

theorem c8Inv_of_shape {c c' : TriviaChain}
    (hshape : (∀ sid,
      (c'.sessions sid).player_list = (c.sessions sid).player_list ∧
      (c'.sessions sid).player_count = (c.sessions sid).player_count ∧
      (c'.sessions sid).max_players = (c.sessions sid).max_players) ∧
      c'.next_session_id = c.next_session_id ∧ c'.owner = c.owner)
    (hro : RosterInv c') (hinv : C8Inv c) : C8Inv c' := by
  obtain ⟨hfields, hnext, howner⟩ := hshape
  obtain ⟨_, hcount, hunt, how⟩ := hinv
  refine ⟨hro, ?_, ?_, ?_⟩
  · intro sid
    rw [(hfields sid).2.1, (hfields sid).1]
    exact hcount sid
  · intro sid hsid
    rw [hnext] at hsid
    rw [(hfields sid).1, (hfields sid).2.2]
    exact hunt sid hsid
  · rw [howner]
    exact how

theorem c8Inv_initState (d : Address) (hd : d ≠ 0) : C8Inv (initState d) := by
  refine ⟨?_, ?_, ?_, ?_⟩
  · intro sid
    refine ⟨List.nodup_nil, fun a => ?_⟩
    simp [initState, initializeContract, zeroState, zeroSession, zeroPlayer]
  · intro sid
    rfl
  · intro sid hsid
    exact ⟨rfl, rfl⟩
  · simpa [initState, initializeContract, zeroState] using hd

theorem c8Inv_step (c : TriviaChain) (sender : Address) (ts : Nat) (op : Op) (r : Nat)
    (hok : (applyOp c sender ts op).1 = Except.ok r)
    (hinv : C8Inv c) : C8Inv ((applyOp c sender ts op).2) := by
  have hro' : RosterInv ((applyOp c sender ts op).2) := rosterInv_step c sender ts op hinv.1
  obtain ⟨hro, hcount, hunt, howner⟩ := hinv
  cases op with
  | initializeContract =>
    exfalso
    simp only [applyOp, initializeContract] at hok
    by_cases h : c.owner ≠ 0
    · rw [if_pos h] at hok
      simp [Except.map] at hok
    · exact h howner
  | createSession rc mp qd =>
    refine ⟨hro', ?_, ?_, ?_⟩
    · intro sid
      simp only [applyOp, create_session]
      rcases eq_or_ne sid c.next_session_id with heq | hne
      · subst heq
        rw [Function.update_same]
        have hl := (hunt c.next_session_id (Nat.le_refl _)).1
        simp [hl]
      · rw [Function.update_noteq hne]
        exact hcount sid
    · intro sid hsid
      simp only [applyOp, create_session] at hsid ⊢
      have hne : sid ≠ c.next_session_id := by omega
      rw [Function.update_noteq hne]
      exact hunt sid (by omega)
    · exact howner
  | joinSession sid0 rc dn =>
    have hok2 : (join_session c sender ts sid0 rc dn).1 = Except.ok () := by
      simp only [applyOp] at hok
      cases hjr : (join_session c sender ts sid0 rc dn).1 with
      | error e =>
        rw [hjr] at hok
        simp [Except.map] at hok
      | ok u =>
        cases u
        rfl
    obtain ⟨h1, h2, h3, h4⟩ := join_session_ok_inv c sender ts sid0 rc dn hok2
    have h3n : ¬ ((c.sessions sid0).player_count ≥ (c.sessions sid0).max_players) := by omega
    have hsid0 : sid0 < c.next_session_id := by
      by_contra hge
      have hm0 := (hunt sid0 (by omega)).2
      omega
    refine ⟨hro', ?_, ?_, ?_⟩
    · intro sid
      simp only [applyOp, join_session, h1, h2, h3n, h4, ne_eq, not_true_eq_false,
        not_false_eq_true, if_false, ite_false, ite_true, Bool.false_eq_true, if_neg]
      try dsimp only
      rcases eq_or_ne sid sid0 with heq | hne
      · subst heq
        rw [Function.update_same]
        have hc0 := hcount sid
        simp [hc0]
      · rw [Function.update_noteq hne]
        exact hcount sid
    · intro sid hsid
      simp only [applyOp, join_session, h1, h2, h3n, h4, ne_eq, not_true_eq_false,
        not_false_eq_true, if_false, ite_false, ite_true, Bool.false_eq_true, if_neg] at hsid ⊢
      try dsimp only at hsid ⊢
      have hne : sid ≠ sid0 := by omega
      rw [Function.update_noteq hne]
      exact hunt sid hsid
    · simp only [applyOp, join_session, h1, h2, h3n, h4, ne_eq, not_true_eq_false,
        not_false_eq_true, if_false, ite_false, ite_true, Bool.false_eq_true, if_neg]
      exact howner
  | startSession sid0 =>
    exact c8Inv_of_shape (start_session_shape c sender ts sid0) hro' ⟨hro, hcount, hunt, howner⟩
  | startQuestion sid0 qi qh qt diff cah =>
    exact c8Inv_of_shape (start_question_shape c sender ts sid0 qi qh qt diff cah) hro'
      ⟨hro, hcount, hunt, howner⟩
  | submitAnswer sid0 qi ah =>
    exact c8Inv_of_shape (submit_answer_shape c sender ts sid0 qi ah) hro'
      ⟨hro, hcount, hunt, howner⟩
  | endSession sid0 =>
    exact c8Inv_of_shape (end_session_shape c sender ts sid0) hro'
      ⟨hro, hcount, hunt, howner⟩

theorem c8Inv_reach {d : Address} {c : TriviaChain} (hd : d ≠ 0)
    (h : ReachFrom (fun _ => True) (initState d) c) : C8Inv c := by
  induction h with
  | base => exact c8Inv_initState d hd
  | step hr hS hok ih => exact c8Inv_step _ _ _ _ _ hok ih

theorem reach_exBad : ReachFrom (fun _ => True) zeroState exBad := by
  have h1 := @ReachFrom.step (fun _ => True) zeroState zeroState 9 0
    (Op.createSession 1 2 10) 0 ReachFrom.base trivial rfl
  have h2 := @ReachFrom.step (fun _ => True) zeroState _ 9 0
    (Op.createSession 1 2 10) 1 h1 trivial rfl
  have h3 := @ReachFrom.step (fun _ => True) zeroState _ 7 0
    (Op.joinSession 1 1 55) 0 h2 trivial rfl
  have h4 := @ReachFrom.step (fun _ => True) zeroState _ 9 0
    Op.initializeContract 0 h3 trivial rfl
  have h5 := @ReachFrom.step (fun _ => True) zeroState _ 9 0
    (Op.createSession 1 2 10) 1 h4 trivial rfl
  exact h5

/-- C8 counterexample: from the freshly deployed (zero) state the invariant
is breakable, because `create_session` is callable before `initialize` and
`initialize` resets `next_session_id` to 1: create, create, join session 1,
initialize, create — the last create reuses id 1, zeroing `player_count`
while `player_list` still holds account 7, so
`player_count ≠ |player_list|` in a state reachable by successful calls. -/
theorem c8_counterexample :
    ReachFrom (fun _ => True) zeroState exBad ∧
    (exBad.sessions 1).player_count = 0 ∧
    (exBad.sessions 1).player_list = [7] ∧
    (exBad.sessions 1).player_count ≠ (exBad.sessions 1).player_list.length :=
  ⟨reach_exBad, rfl, rfl, by decide⟩

/-- C8 (amended): in every state reachable by successful operations from
the initialized contract (deployment followed by `initialize` from a
non-zero account — the intended flow, which permanently fixes the owner and
makes the session-id counter monotone), every session satisfies
`player_count = |player_list|`, no account appears twice in `player_list`,
and membership in `player_list` coincides with the player's `is_active`
flag (so the count also equals the number of active players). -/
theorem c8_roster_invariant_amended (d : Address) (c : TriviaChain) (hd : d ≠ 0)
    (h : ReachFrom (fun _ => True) (initState d) c) (sid : Nat) :
    (c.sessions sid).player_count = (c.sessions sid).player_list.length ∧
    (c.sessions sid).player_list.Nodup ∧
    (∀ a, a ∈ (c.sessions sid).player_list ↔
      ((c.sessions sid).players a).is_active = true) := by
  obtain ⟨hro, hcount, hunt, howner⟩ := c8Inv_reach hd h
  exact ⟨hcount sid, (hro sid).1, (hro sid).2⟩

theorem reach_init_exJoined : ReachFrom (fun _ => True) (initState 9) exJoined := by
  have h1 := @ReachFrom.step (fun _ => True) (initState 9) (initState 9) 9 0
    (Op.createSession 1 2 10) 1 ReachFrom.base trivial rfl
  have h2 := @ReachFrom.step (fun _ => True) (initState 9) _ 7 3
    (Op.joinSession 1 1 55) 0 h1 trivial rfl
  exact h2

/-- C8 witness: the invariant instantiated on the concrete
create-then-join trace from the initialized contract. -/
theorem c8_witness :
    (exJoined.sessions 1).player_count = (exJoined.sessions 1).player_list.length ∧
    (exJoined.sessions 1).player_list.Nodup ∧
    (∀ a, a ∈ (exJoined.sessions 1).player_list ↔
      ((exJoined.sessions 1).players a).is_active = true) :=
  c8_roster_invariant_amended 9 exJoined (by decide) reach_init_exJoined 1

theorem scan_keys (ps : Address → Player) (l : List Address) :
    ((l.map fun a =>
      (a, (ps a).score, (ps a).correct_answers, (ps a).best_streak)).map Prod.fst) = l := by
  rw [List.map_map]
  have hfn : (Prod.fst ∘ fun a : Address =>
      (a, (ps a).score, (ps a).correct_answers, (ps a).best_streak)) = id := rfl
  rw [hfn, List.map_id]

theorem foldl_stats_games_pos (data : List (Address × Nat × Nat × Nat))
    (st : Address → PlayerStats) (p : Address) (hp : p ∈ data.map Prod.fst) :
    1 ≤ ((data.foldl
      (fun st d => Function.update st d.1 (closeStats (st d.1) d.2.1 d.2.2.1 d.2.2.2))
      st) p).games_played := by
  induction data generalizing st with
  | nil => simp at hp
  | cons d rest ih =>
    rw [List.foldl_cons]
    by_cases hin : p ∈ rest.map Prod.fst
    · exact ih _ hin
    · have hpd : p = d.1 := by
        simp only [List.map_cons, List.mem_cons] at hp
        tauto
      rw [foldl_stats_not_mem _ _ _ hin, hpd, Function.update_same]
      simp [closeStats]

theorem zeroInv_initState (d : Address) (hd : d ≠ 0) : ZeroInv (initState d) := by
  refine ⟨fun sid _ => rfl, fun sid a _ => rfl, fun a _ => rfl, ?_, ?_⟩
  · simpa [initState, initializeContract, zeroState] using hd
  · exact Nat.le_refl 1

theorem create_session_stats_eq (c : TriviaChain) (sender : Address) (rc mp qd : Nat) :
    (create_session c sender rc mp qd).2.player_stats = c.player_stats := rfl

theorem join_session_stats_eq (c : TriviaChain) (sender : Address) (ts sid rc dn : Nat) :
    (join_session c sender ts sid rc dn).2.player_stats = c.player_stats := by
  simp only [join_session]
  split_ifs <;> rfl

theorem start_session_stats_eq (c : TriviaChain) (sender : Address) (ts sid : Nat) :
    (start_session c sender ts sid).2.player_stats = c.player_stats := by
  simp only [start_session]
  split_ifs <;> rfl

theorem start_question_stats_eq (c : TriviaChain) (sender : Address)
    (ts sid qi qh qt diff cah : Nat) :
    (start_question c sender ts sid qi qh qt diff cah).2.player_stats = c.player_stats := by
  simp only [start_question]
  split_ifs <;> rfl

set_option maxHeartbeats 1000000 in
theorem submit_answer_stats_eq (c : TriviaChain) (sender : Address) (ts sid qi ah : Nat) :
    (submit_answer c sender ts sid qi ah).2.player_stats = c.player_stats := by
  simp only [submit_answer]
  split_ifs <;> rfl

set_option maxHeartbeats 2000000 in
theorem zeroInv_step (c : TriviaChain) (sender : Address) (ts : Nat) (op : Op) (r : Nat)
    (hS : sender ≠ 0) (hok : (applyOp c sender ts op).1 = Except.ok r)
    (hinv : ZeroInv c) : ZeroInv ((applyOp c sender ts op).2) := by
  obtain ⟨hzero, hplayers, hstats, howner, hnext⟩ := hinv
  cases op with
  | initializeContract =>
    exfalso
    simp only [applyOp, initializeContract] at hok
    by_cases h : c.owner ≠ 0
    · rw [if_pos h] at hok
      simp [Except.map] at hok
    · exact h howner
  | createSession rc mp qd =>
    refine ⟨?_, ?_, ?_, howner, by simp only [applyOp, create_session]; omega⟩
    · intro sid hsid
      simp only [applyOp, create_session] at hsid ⊢
      have hne : sid ≠ c.next_session_id := by omega
      rw [Function.update_noteq hne]
      apply hzero
      omega
    · intro sid a
      simp only [applyOp, create_session]
      rcases eq_or_ne sid c.next_session_id with heq | hne
      · subst heq
        rw [Function.update_same]
        exact hplayers c.next_session_id a
      · rw [Function.update_noteq hne]
        exact hplayers sid a
    · intro a
      simp only [applyOp]
      rw [create_session_stats_eq]
      exact hstats a
  | joinSession sid0 rc dn =>
    have hok2 : (join_session c sender ts sid0 rc dn).1 = Except.ok () := by
      simp only [applyOp] at hok
      cases hjr : (join_session c sender ts sid0 rc dn).1 with
      | error e =>
        rw [hjr] at hok
        simp [Except.map] at hok
      | ok u =>
        cases u
        rfl
    obtain ⟨h1, h2, h3, h4⟩ := join_session_ok_inv c sender ts sid0 rc dn hok2
    have h3n : ¬ ((c.sessions sid0).player_count ≥ (c.sessions sid0).max_players) := by omega
    have hz0 : ∀ sid, (sid = 0 ∨ c.next_session_id ≤ sid) → sid ≠ sid0 := by
      intro sid hsid heq
      subst heq
      have hzs := hzero sid hsid
      rw [hzs] at h3
      simp [zeroSession] at h3
    refine ⟨?_, ?_, ?_, ?_, ?_⟩
    · intro sid hsid
      simp only [applyOp, join_session, h1, h2, h3n, h4, ne_eq, not_true_eq_false,
        not_false_eq_true, if_false, ite_false, ite_true, Bool.false_eq_true, if_neg] at hsid ⊢
      try dsimp only at hsid ⊢
      rw [Function.update_noteq (hz0 sid hsid)]
      exact hzero sid hsid
    · intro sid a
      simp only [applyOp, join_session, h1, h2, h3n, h4, ne_eq, not_true_eq_false,
        not_false_eq_true, if_false, ite_false, ite_true, Bool.false_eq_true, if_neg]
      try dsimp only
      rcases eq_or_ne sid sid0 with heq | hne
      · subst heq
        rw [Function.update_same]
        dsimp only
        rcases eq_or_ne a sender with rfl | hna
        · rw [Function.update_same]
          intro hfalse
          cases hfalse
        · rw [Function.update_noteq hna]
          exact hplayers sid a
      · rw [Function.update_noteq hne]
        exact hplayers sid a
    · intro a
      simp only [applyOp]
      rw [join_session_stats_eq]
      exact hstats a
    · simp only [applyOp, join_session, h1, h2, h3n, h4, ne_eq, not_true_eq_false,
        not_false_eq_true, if_false, ite_false, ite_true, Bool.false_eq_true, if_neg]
      exact howner
    · simp only [applyOp, join_session, h1, h2, h3n, h4, ne_eq, not_true_eq_false,
        not_false_eq_true, if_false, ite_false, ite_true, Bool.false_eq_true, if_neg]
      exact hnext
  | startSession sid0 =>
    have hhost : (c.sessions sid0).host = sender := by
      by_contra hne
      simp only [applyOp] at hok
      simp [start_session, hne, Except.map] at hok
    have hst0 : (c.sessions sid0).status = 0 := by
      by_contra hne
      simp only [applyOp] at hok
      simp [start_session, hhost, hne, Except.map] at hok
    have hz0 : ∀ sid, (sid = 0 ∨ c.next_session_id ≤ sid) → sid ≠ sid0 := by
      intro sid hsid heq
      subst heq
      have hzs := hzero sid hsid
      rw [hzs] at hhost
      exact hS (by simpa [zeroSession] using hhost.symm)
    refine ⟨?_, ?_, ?_, ?_, ?_⟩
    · intro sid hsid
      simp only [applyOp, start_session, hhost, hst0, ne_eq, not_true_eq_false,
        not_false_eq_true, if_false, ite_false, ite_true, if_neg] at hsid ⊢
      try dsimp only at hsid ⊢
      rw [Function.update_noteq (hz0 sid hsid)]
      exact hzero sid hsid
    · intro sid a
      simp only [applyOp, start_session, hhost, hst0, ne_eq, not_true_eq_false,
        not_false_eq_true, if_false, ite_false, ite_true, if_neg]
      try dsimp only
      rcases eq_or_ne sid sid0 with heq | hne
      · subst heq
        rw [Function.update_same]
        exact hplayers sid a
      · rw [Function.update_noteq hne]
        exact hplayers sid a
    · intro a
      simp only [applyOp]
      rw [start_session_stats_eq]
      exact hstats a
    · simp only [applyOp, start_session, hhost, hst0, ne_eq, not_true_eq_false,
        not_false_eq_true, if_false, ite_false, ite_true, if_neg]
      exact howner
    · simp only [applyOp, start_session, hhost, hst0, ne_eq, not_true_eq_false,
        not_false_eq_true, if_false, ite_false, ite_true, if_neg]
      exact hnext
  | startQuestion sid0 qi qh qt diff cah =>
    have hhost : (c.sessions sid0).host = sender := by
      by_contra hne
      simp only [applyOp] at hok
      simp [start_question, hne, Except.map] at hok
    have hst1 : (c.sessions sid0).status = 1 := by
      by_contra hne
      simp only [applyOp] at hok
      simp [start_question, hhost, hne, Except.map] at hok
    have hz0 : ∀ sid, (sid = 0 ∨ c.next_session_id ≤ sid) → sid ≠ sid0 := by
      intro sid hsid heq
      subst heq
      have hzs := hzero sid hsid
      rw [hzs] at hhost
      exact hS (by simpa [zeroSession] using hhost.symm)
    refine ⟨?_, ?_, ?_, ?_, ?_⟩
    · intro sid hsid
      simp only [applyOp, start_question, hhost, hst1, ne_eq, not_true_eq_false,
        not_false_eq_true, if_false, ite_false, ite_true, if_neg] at hsid ⊢
      try dsimp only at hsid ⊢
      rw [Function.update_noteq (hz0 sid hsid)]
      exact hzero sid hsid
    · intro sid a
      simp only [applyOp, start_question, hhost, hst1, ne_eq, not_true_eq_false,
        not_false_eq_true, if_false, ite_false, ite_true, if_neg]
      try dsimp only
      rcases eq_or_ne sid sid0 with heq | hne
      · subst heq
        rw [Function.update_same]
        exact hplayers sid a
      · rw [Function.update_noteq hne]
        exact hplayers sid a
    · intro a
      simp only [applyOp]
      rw [start_question_stats_eq]
      exact hstats a
    · simp only [applyOp, start_question, hhost, hst1, ne_eq, not_true_eq_false,
        not_false_eq_true, if_false, ite_false, ite_true, if_neg]
      exact howner
    · simp only [applyOp, start_question, hhost, hst1, ne_eq, not_true_eq_false,
        not_false_eq_true, if_false, ite_false, ite_true, if_neg]
      exact hnext
  | submitAnswer sid0 qi ah =>
    obtain ⟨hst, hqi0, hact, hfresh, hwin⟩ := submit_answer_ok_inv c sender ts sid0 qi ah r hok
    have hnl : ¬ (ts > (c.sessions sid0).question_start_time + (c.sessions sid0).question_duration) := by
      omega
    have hz0 : ∀ sid, (sid = 0 ∨ c.next_session_id ≤ sid) → sid ≠ sid0 := by
      intro sid hsid heq
      subst heq
      have hzs := hzero sid hsid
      rw [hzs] at hst
      simp [zeroSession] at hst
    refine ⟨?_, ?_, ?_, ?_, ?_⟩
    · intro sid hsid
      simp only [applyOp] at hsid ⊢
      simp [submit_answer, hst, hqi0, hact, hfresh, hnl] at hsid ⊢
      rw [Function.update_noteq (hz0 sid hsid)]
      exact hzero sid hsid
    · intro sid a
      simp only [applyOp]
      simp [submit_answer, hst, hqi0, hact, hfresh, hnl]
      rcases eq_or_ne sid sid0 with heq | hne
      · subst heq
        rw [Function.update_same]
        dsimp only
        rcases eq_or_ne a sender with rfl | hna
        · rw [Function.update_same]
          simp [apply_ite Player.is_active, ite_self, hact]
        · rw [Function.update_noteq hna]
          exact hplayers sid a
      · rw [Function.update_noteq hne]
        exact hplayers sid a
    · intro a
      simp only [applyOp]
      rw [submit_answer_stats_eq]
      exact hstats a
    · simp only [applyOp]
      simpa [submit_answer, hst, hqi0, hact, hfresh, hnl] using howner
    · simp only [applyOp]
      simpa [submit_answer, hst, hqi0, hact, hfresh, hnl] using hnext
  | endSession sid0 =>
    have hhost : (c.sessions sid0).host = sender := by
      by_contra hne
      simp only [applyOp] at hok
      simp [end_session, hne] at hok
    have hst1 : (c.sessions sid0).status = 1 := by
      by_contra hne
      simp only [applyOp] at hok
      simp [end_session, hhost, hne] at hok
    have hz0 : ∀ sid, (sid = 0 ∨ c.next_session_id ≤ sid) → sid ≠ sid0 := by
      intro sid hsid heq
      subst heq
      have hzs := hzero sid hsid
      rw [hzs] at hhost
      exact hS (by simpa [zeroSession] using hhost.symm)
    have hWmem : (endSessionScan (c.sessions sid0).players (c.sessions sid0).player_list 0 0).2.1 = 0 ∨
        (endSessionScan (c.sessions sid0).players (c.sessions sid0).player_list 0 0).2.1 ∈
          (c.sessions sid0).player_list := by
      rcases endSessionScan_isSessionWinner (c.sessions sid0).players (c.sessions sid0).player_list with
        ⟨hw0, _⟩ | ⟨pre, post, heq, _, _, _⟩
      · exact Or.inl hw0
      · exact Or.inr (mem_of_eq_append_cons heq)
    have hstats2 : (end_session c sender ts sid0).2.player_stats =
      ((c.sessions sid0).player_list.map fun a =>
        (a, ((c.sessions sid0).players a).score, ((c.sessions sid0).players a).correct_answers,
          ((c.sessions sid0).players a).best_streak)).foldl
        (fun st d => Function.update st d.1 (closeStats (st d.1) d.2.1 d.2.2.1 d.2.2.2))
        (if (endSessionScan (c.sessions sid0).players (c.sessions sid0).player_list 0 0).2.1 ≠ 0 then
          Function.update c.player_stats
            (endSessionScan (c.sessions sid0).players (c.sessions sid0).player_list 0 0).2.1
            { c.player_stats (endSessionScan (c.sessions sid0).players (c.sessions sid0).player_list 0 0).2.1 with
              total_wins := (c.player_stats
                (endSessionScan (c.sessions sid0).players (c.sessions sid0).player_list 0 0).2.1).total_wins + 1 }
        else c.player_stats) := by
      simp [end_session, hhost, hst1, endSessionScan_data, apply_ite TriviaChain.player_stats]
    refine ⟨?_, ?_, ?_, ?_, ?_⟩
    · intro sid hsid
      simp only [applyOp] at hsid ⊢
      simp [end_session, hhost, hst1, apply_ite TriviaChain.sessions, ite_self,
        apply_ite TriviaChain.next_session_id] at hsid ⊢
      rw [Function.update_noteq (hz0 sid hsid)]
      exact hzero sid hsid
    · intro sid a
      simp only [applyOp]
      simp [end_session, hhost, hst1, apply_ite TriviaChain.sessions, ite_self]
      rcases eq_or_ne sid sid0 with heq | hne
      · subst heq
        rw [Function.update_same]
        exact hplayers sid a
      · rw [Function.update_noteq hne]
        exact hplayers sid a
    · intro a
      simp only [applyOp]
      rw [hstats2]
      intro hg
      by_cases hin : a ∈ (((c.sessions sid0).player_list.map fun b =>
          (b, ((c.sessions sid0).players b).score, ((c.sessions sid0).players b).correct_answers,
            ((c.sessions sid0).players b).best_streak)).map Prod.fst)
      · exfalso
        have hpos := foldl_stats_games_pos
          ((c.sessions sid0).player_list.map fun b =>
            (b, ((c.sessions sid0).players b).score, ((c.sessions sid0).players b).correct_answers,
              ((c.sessions sid0).players b).best_streak))
          (if (endSessionScan (c.sessions sid0).players (c.sessions sid0).player_list 0 0).2.1 ≠ 0 then
            Function.update c.player_stats
              (endSessionScan (c.sessions sid0).players (c.sessions sid0).player_list 0 0).2.1
              { c.player_stats (endSessionScan (c.sessions sid0).players (c.sessions sid0).player_list 0 0).2.1 with
                total_wins := (c.player_stats
                  (endSessionScan (c.sessions sid0).players (c.sessions sid0).player_list 0 0).2.1).total_wins + 1 }
          else c.player_stats) a hin
        rw [hg] at hpos
        exact absurd hpos (by decide)
      · rw [foldl_stats_not_mem _ _ _ hin] at hg ⊢
        rw [scan_keys] at hin
        rcases hWmem with hw0 | hmem
        · rw [if_neg (by simp [hw0])] at hg ⊢
          exact hstats a hg
        · have haw : a ≠ (endSessionScan (c.sessions sid0).players (c.sessions sid0).player_list 0 0).2.1 :=
            fun hae => hin (hae ▸ hmem)
          split_ifs at hg ⊢ with hw
          · rw [Function.update_noteq haw] at hg ⊢
            exact hstats a hg
          · exact hstats a hg
    · simp only [applyOp]
      simpa [end_session, hhost, hst1, apply_ite TriviaChain.owner, ite_self] using howner
    · simp only [applyOp]
      simpa [end_session, hhost, hst1, apply_ite TriviaChain.next_session_id, ite_self] using hnext

theorem zeroInv_reach {d : Address} {c : TriviaChain} (hd : d ≠ 0)
    (h : ReachFrom (fun a => a ≠ 0) (initState d) c) : ZeroInv c := by
  induction h with
  | base => exact zeroInv_initState d hd
  | step hr hS hok ih => exact zeroInv_step _ _ _ _ _ hS hok ih

/-- C10: the read-only getters are total functions that never fail, and on
any state reachable from the initialized contract by calls from non-zero
accounts, a never-created session id (id 0, or any id the monotone counter
has not yet assigned) reads as all-zero — `get_session_info` returns
(zero host, status 0 = Created, 0 players, question index 0, zero winner)
and `get_leaderboard` returns the empty sequence, so reads cannot
distinguish a nonexistent session from a freshly zero-initialised one;
`get_player_score` returns 0 for any account without a Player record
(`is_active` false), and `get_player_stats` returns all zeros for an
account with no recorded games. -/
theorem c10_getters_total (d : Address) (c : TriviaChain) (hd : d ≠ 0)
    (h : ReachFrom (fun a => a ≠ 0) (initState d) c) :
    (∀ sid, (sid = 0 ∨ c.next_session_id ≤ sid) →
      get_session_info c sid = (0, 0, 0, 0, 0) ∧ get_leaderboard c sid = []) ∧
    (∀ sid a, ((c.sessions sid).players a).is_active = false →
      get_player_score c sid a = 0) ∧
    (∀ a, (c.player_stats a).games_played = 0 →
      get_player_stats c a = (0, 0, 0, 0)) := by
  obtain ⟨hzero, hplayers, hstats, howner, hnext⟩ := zeroInv_reach hd h
  refine ⟨fun sid hsid => ?_, fun sid a hact => ?_, fun a hg => ?_⟩
  · have hz := hzero sid hsid
    constructor
    · simp [get_session_info, hz, zeroSession]
    · simp [get_leaderboard, hz, zeroSession]
  · have hp := hplayers sid a hact
    simp [get_player_score, hp, zeroPlayer]
  · have hs := hstats a hg
    simp [get_player_stats, hs, zeroStats]

theorem reachNZ_exJoined : ReachFrom (fun a => a ≠ 0) (initState 9) exJoined := by
  have h1 := @ReachFrom.step (fun a => a ≠ 0) (initState 9) (initState 9) 9 0
    (Op.createSession 1 2 10) 1 ReachFrom.base (by decide) rfl
  have h2 := @ReachFrom.step (fun a => a ≠ 0) (initState 9) _ 7 3
    (Op.joinSession 1 1 55) 0 h1 (by decide) rfl
  exact h2

/-- C10 witness: the getter defaults instantiated on the concrete
create-then-join trace — session 5 was never created, account 8 never
joined session 1, account 7 has no closed games yet. -/
theorem c10_witness :
    (get_session_info exJoined 5 = (0, 0, 0, 0, 0) ∧ get_leaderboard exJoined 5 = []) ∧
    get_player_score exJoined 1 8 = 0 ∧
    get_player_stats exJoined 7 = (0, 0, 0, 0) :=
  ⟨(c10_getters_total 9 exJoined (by decide) reachNZ_exJoined).1 5 (Or.inr (by decide)),
   (c10_getters_total 9 exJoined (by decide) reachNZ_exJoined).2.1 1 8 (by decide),
   (c10_getters_total 9 exJoined (by decide) reachNZ_exJoined).2.2 7 (by decide)⟩

end Trivia
